import Mathlib

/-
Verification development for the SWE-bench-Live image-based evaluator
(`launch/evaluation/evaluate_images.py`).

The Python evaluator is shallowly embedded here.  External effects (the
filesystem, the Docker daemon, wall-clock time) are supplied through an
explicit oracle environment (`Env`), and the evaluator is modelled as a
pure function from that oracle to its result record together with a trace
of container/log events.  Text manipulation mirrors Python string
semantics via structurally recursive functions over `List Char`, so every
definition evaluates inside the kernel.
-/

namespace SweBench

/-! ## Python-style string primitives -/

/-- Split a character list at every occurrence of `sep`
(Python `str.split(sep)` semantics for a one-character separator:
`"" ↦ [""]`, separators produce empty pieces). -/
def splitCharList (sep : Char) : List Char → List (List Char)
  | [] => [[]]
  | c :: cs =>
    let r := splitCharList sep cs
    if c = sep then [] :: r
    else
      match r with
      | h :: t => (c :: h) :: t
      | [] => [[c]]

/-- Python `text.split('\n')`. -/
def splitLines (s : String) : List String :=
  (splitCharList '\n' s.toList).map List.asString

/-- The characters Python `str.split()` (no argument) treats as whitespace,
restricted to the ASCII range used by this program's inputs. -/
def isPyWs (c : Char) : Bool :=
  c = ' ' || c = '\t' || c = '\n' || c = '\r' || c = '\x0b' || c = '\x0c'

/-- Worker for `pySplit`: `cur` holds the current word reversed. -/
def wordsAux : List Char → List Char → List (List Char)
  | cur, [] => if cur = [] then [] else [cur.reverse]
  | cur, c :: cs =>
    if isPyWs c then
      if cur = [] then wordsAux [] cs else cur.reverse :: wordsAux [] cs
    else wordsAux (c :: cur) cs

/-- Python `line.split()`: split on whitespace runs, no empty pieces. -/
def pySplit (s : String) : List String :=
  (wordsAux [] s.toList).map List.asString

/-- Python `s.startswith(pre)`. -/
def strStartsWith (s pre : String) : Bool :=
  pre.toList.isPrefixOf s.toList

/-- Python `s.endswith(suf)`. -/
def strEndsWith (s suf : String) : Bool :=
  suf.toList.reverse.isPrefixOf s.toList.reverse

/-- Python `s.lower()` (ASCII case folding). -/
def strLower (s : String) : String :=
  (s.toList.map Char.toLower).asString

/-- Python `s[n:]` (drop the first `n` code points). -/
def strDrop (s : String) (n : Nat) : String :=
  (s.toList.drop n).asString

/-- Substring search over character lists (`pat ∈ hay` in Python). -/
def substrAux (pat : List Char) : List Char → Bool
  | [] => pat.isEmpty
  | c :: cs => pat.isPrefixOf (c :: cs) || substrAux pat cs

/-- Python `pat in hay` for strings. -/
def hasSubstr (hay pat : String) : Bool :=
  substrAux pat.toList hay.toList

/-- Python `' '.join(xs)`. -/
def joinSpace : List String → String
  | [] => ""
  | [x] => x
  | x :: xs => x ++ " " ++ joinSpace xs

/-! ## Patch Codec: test-file extraction (`extract_test_files_from_patch`) -/

/-- Shallow embedding of `extract_test_files_from_patch` (evaluate_images.py,
lines 45–70): scan lines of the patch, and for every `diff --git` header with
at least three whitespace-separated fields take the third field (`a/<path>`),
strip its first two characters, and keep it when the lower-cased path contains
`"test"` and the path ends in `".py"`.  The empty patch returns `[]`. -/
def extract_test_files_from_patch (test_patch : String) : List String :=
  if test_patch = "" then []
  else
    (splitLines test_patch).foldl
      (fun acc line =>
        if strStartsWith line "diff --git" then
          let parts := pySplit line
          if 3 ≤ parts.length then
            let fp := strDrop (parts.getD 2 "") 2
            if hasSubstr (strLower fp) "test" && strEndsWith fp ".py" then
              acc ++ [fp]
            else acc
          else acc
        else acc)
      []

/-- The claim's reading of the extractor: it selects and returns the
*new-file* (`b/`, fourth field) path of each `diff --git` header.  Stated
from the claim's words, for comparison against the source embedding. -/
def extractTestFilesClaim (test_patch : String) : List String :=
  if test_patch = "" then []
  else
    (splitLines test_patch).filterMap
      (fun line =>
        if strStartsWith line "diff --git" then
          match pySplit line with
          | _ :: _ :: _ :: b :: _ =>
            let fp := strDrop b 2
            if hasSubstr (strLower fp) "test" && strEndsWith fp ".py" then
              some fp
            else none
          | _ => none
        else none)

/-- The amended claim: the extractor selects and returns the *old-file*
(`a/`, third field) path, stripped of its first two characters, keeping it
when the lower-cased path contains `"test"` and it ends with `".py"`,
in encounter order with duplicates preserved. -/
def extractTestFilesAmended (test_patch : String) : List String :=
  (splitLines test_patch).filterMap
    (fun line =>
      if strStartsWith line "diff --git" then
        match pySplit line with
        | _ :: _ :: a :: _ =>
          let fp := strDrop a 2
          if hasSubstr (strLower fp) "test" && strEndsWith fp ".py" then
            some fp
          else none
        | _ => none
      else none)

example : extract_test_files_from_patch "diff --git a/tests/test_a.py b/tests/test_a.py" = ["tests/test_a.py"] := by decide

example : extract_test_files_from_patch "diff --git a/foo.py b/tests/test_bar.py" = [] := by decide

example : extractTestFilesClaim "diff --git a/foo.py b/tests/test_bar.py" = ["tests/test_bar.py"] := by decide

/-! ## Patch Codec: archive-based delivery (`write_patch_to_container`) -/

/-- Index just past the last `'/'` of `p` (Python `p.rfind('/') + 1`,
with `rfind` returning `-1` when absent). -/
def lastSlashSucc (p : List Char) : Nat :=
  match p with
  | [] => 0
  | c :: cs =>
    let r := lastSlashSucc cs
    if r ≠ 0 then r + 1
    else if c = '/' then 1 else 0

/-- Python `os.path.basename` (posixpath): everything after the last `'/'`. -/
def os_path_basename (p : String) : String :=
  (p.toList.drop (lastSlashSucc p.toList)).asString

/-- Python `os.path.dirname` (posixpath): everything before the last `'/'`,
with trailing slashes stripped unless the head is all slashes. -/
def os_path_dirname (p : String) : String :=
  let head := p.toList.take (lastSlashSucc p.toList)
  if head ≠ [] ∧ ¬ head.all (· = '/') then
    ((head.reverse.dropWhile (· = '/')).reverse).asString
  else head.asString

example : os_path_basename "/tmp/test.patch" = "test.patch" := by decide
example : os_path_dirname "/tmp/test.patch" = "/tmp" := by decide
example : os_path_dirname "test.patch" = "" := by decide

/-- One member of the in-memory tar archive built by
`write_patch_to_container`. -/
structure TarEntry where
  name : String
  size : Nat
  content : List UInt8
  deriving Repr, DecidableEq

/-- Shallow embedding of `write_patch_to_container` (evaluate_images.py,
lines 73–105).  The Docker `put_archive` call is the oracle `putOk`; on
success the model returns the directory the archive was uploaded to and
the archive's members, and on reported upload failure it raises
(`RuntimeError`, modelled as `Except.error` with the source's message). -/
def write_patch_to_container (putOk : Bool) (patch_content dest_path : String) :
    Except String (String × List TarEntry) :=
  let patch_bytes := patch_content.toUTF8.toList
  let entry : TarEntry :=
    { name := os_path_basename dest_path
      size := patch_bytes.length
      content := patch_bytes }
  let dest_dir0 := os_path_dirname dest_path
  let dest_dir := if dest_dir0 = "" then "/" else dest_dir0
  if putOk then Except.ok (dest_dir, [entry])
  else Except.error ("Failed to write patch to " ++ dest_path)

/-! ## Bounded Executor (`exec_run_with_timeout`) -/

/-- Outcome of a raw `container.exec_run` call, supplied by the oracle:
either the call raised (with the exception's text) or it returned an exit
code and decoded output. -/
inductive RawExec where
  | raised (msg : String)
  | done (exitCode : Int) (output : String)
  deriving Repr, DecidableEq

/-- What a call to `exec_run_with_timeout` does, as seen by its caller. -/
inductive ExecRes where
  | timeoutRaised
  | exnRaised (msg : String)
  | ok (exitCode : Int) (output : String)
  deriving Repr, DecidableEq

/-- Shallow embedding of `exec_run_with_timeout` (evaluate_images.py, lines
167–211).  `duration` is the wall time the underlying `exec_run` takes; the
worker thread is still alive after `join(timeout_seconds)` exactly when
`duration > timeout_seconds`, in which case `TimeoutError` is raised.
Otherwise a stored exception is re-raised, or the exit code and combined
output are returned. -/
def exec_run_with_timeout (duration timeoutSeconds : Nat) (raw : RawExec) : ExecRes :=
  if duration > timeoutSeconds then ExecRes.timeoutRaised
  else
    match raw with
    | RawExec.raised m => ExecRes.exnRaised m
    | RawExec.done c o => ExecRes.ok c o

/-- Thread-level actions `exec_run_with_timeout` performs on the in-container
process: it spawns a worker thread and waits on it up to the bound.  There is
no kill action in its vocabulary that the function ever emits. -/
inductive TEv where
  | spawn
  | joinWait (bound : Nat)
  | kill
  deriving Repr, DecidableEq

/-- The thread actions of `exec_run_with_timeout`: spawn the worker, then
`thread.join(timeout=timeout_seconds)`.  On timeout the worker (a daemon
thread) is abandoned, never killed. -/
def exec_run_with_timeout_actions (timeoutSeconds : Nat) : List TEv :=
  [TEv.spawn, TEv.joinWait timeoutSeconds]

/-! ## Runner bootstrap (`install_pytest_in_container`) -/

/-- Oracle for one invocation of `install_pytest_in_container`. -/
structure PyEnv where
  check : RawExec
  installDuration : Nat
  installRaw : RawExec
  verify : RawExec
  deriving Repr, DecidableEq

/-- What `install_pytest_in_container` does: either its unguarded initial
check raised (propagating to the caller) or it returned `(success, message)`. -/
inductive PyResult where
  | raisedOut (msg : String)
  | ret (success : Bool) (message : String)
  deriving Repr, DecidableEq

/-- Shallow embedding of `install_pytest_in_container` (evaluate_images.py,
lines 108–151): probe for pytest; if present return success; otherwise try
`pip install pytest` under `exec_run_with_timeout` and verify, catching
`TimeoutError` and other exceptions into failure returns. -/
def install_pytest_in_container (timeoutSeconds : Nat) (pe : PyEnv) : PyResult :=
  match pe.check with
  | RawExec.raised m => PyResult.raisedOut m
  | RawExec.done c o =>
    if c = 0 then PyResult.ret true ("pytest already installed: " ++ o.trim)
    else
      match exec_run_with_timeout pe.installDuration timeoutSeconds pe.installRaw with
      | ExecRes.timeoutRaised =>
        PyResult.ret false ("pytest installation timed out after " ++ toString timeoutSeconds ++ "s")
      | ExecRes.exnRaised m =>
        PyResult.ret false ("pytest installation error: " ++ m)
      | ExecRes.ok ic io =>
        if ic = 0 then
          match pe.verify with
          | RawExec.raised m => PyResult.ret false ("pytest installation error: " ++ m)
          | RawExec.done vc vo =>
            if vc = 0 then PyResult.ret true ("pytest installed successfully: " ++ vo.trim)
            else PyResult.ret false "pytest installation verification failed"
        else
          PyResult.ret false
            ("pytest installation failed: " ++ (if io = "" then "No output" else io))

/-- The `if install_pytest:` guard around each call site: when the flag is
off, no bootstrap happens and evaluation continues. -/
def pytestGate (installPytest : Bool) (pe : PyEnv) : PyResult :=
  if installPytest then install_pytest_in_container 300 pe else PyResult.ret true ""

/-- Does a `PyResult` let the stage continue (returned with success)? -/
def pyOkB : PyResult → Bool
  | PyResult.ret true _ => true
  | _ => false

/-! ## Instance Evaluator (`evaluate_single_instance`) -/

/-- `get_image_name` (evaluate_images.py, lines 25–42):
`{namespace}/sweb.eval.{arch}.{instance_id.lower()}:{tag}`. -/
def get_image_name (instance_id ns arch tag : String) : String :=
  ns ++ "/" ++ ("sweb.eval." ++ arch ++ "." ++ strLower instance_id) ++ ":" ++ tag

/-- `check_test_results` (lines 154–164): all tests passed iff exit code 0. -/
def check_test_results (exit_code : Int) : Bool :=
  exit_code == 0

/-- The result record built by `evaluate_single_instance`.  Times are wall
seconds (modelled as `Nat`). -/
structure EvalResult where
  instance_id : String
  status : String
  env_pass : Bool
  f2p_pass : Bool
  message : String
  test_only_time : Nat
  both_patches_time : Nat
  test_only_passed : Bool
  both_patches_passed : Bool
  image_name : Option String
  timestamp : String
  deriving Repr, DecidableEq

/-- Observable container/log actions of one `evaluate_single_instance` call,
in program order.  `stopA`/`removeA` record attempted Docker stop/remove
calls together with whether the call succeeded; `execTest` records a test
run through the Bounded Executor in the given stage. -/
inductive Ev where
  | create
  | stopA (ok : Bool)
  | removeA (ok : Bool)
  | execTest (stage : Nat)
  | log (name : String) (content : String)
  deriving Repr, DecidableEq

/-- Oracle for one stage's container interactions.  `create` is `none` when
`client.containers.run` succeeds (else the raised message); `putA`/`applyA`
are the first patch write/apply of the stage (the test patch in stage 1, the
fix patch in stage 2); `putB`/`applyB` are stage 2's test-patch write/apply;
`testDuration`/`testRaw` drive the bounded test execution. -/
structure StageEnv where
  create : Option String
  pytest : PyEnv
  putA : Bool
  applyA : RawExec
  putB : Bool
  applyB : RawExec
  testDuration : Nat
  testRaw : RawExec
  deriving Repr, DecidableEq

/-- Oracle environment for one `evaluate_single_instance` call: the
validation probes, the per-stage container interactions, the observed stage
wall times, and the between-stage stop/remove outcomes (`none` = success,
`some m` = the call raised with message `m`). -/
structure Env where
  dirExists : Bool
  jsonExists : Bool
  testPatch : String
  fixPatch : String
  imageExists : Bool
  s1 : StageEnv
  s2 : StageEnv
  time1 : Nat
  time2 : Nat
  midStop : Option String
  midRemove : Option String
  nowStr : String
  deriving Repr, DecidableEq

/-- The `result` dictionary as initialised at the top of
`evaluate_single_instance` (lines 238–249). -/
def initResult (instance_id nowStr : String) : EvalResult :=
  { instance_id := instance_id
    status := "unknown"
    env_pass := false
    f2p_pass := false
    message := ""
    test_only_time := 0
    both_patches_time := 0
    test_only_passed := false
    both_patches_passed := false
    image_name := none
    timestamp := nowStr }

/-- Python `True`/`False` rendering. -/
def pyBoolStr (b : Bool) : String :=
  if b then "True" else "False"

/-- The stage banner line of a stage log. -/
def stageHeader (stage : Nat) : String :=
  if stage = 1 then "=== Stage 1: Test with only test_patch ===\n\n"
  else "=== Stage 2: Test with both fix_patch and test_patch ===\n\n"

/-- The `  - <file>` lines of a stage log. -/
def filesChunk (testFiles : List String) : String :=
  testFiles.foldl (fun a tf => a ++ ("  - " ++ tf ++ "\n")) ""

/-- Image/test-file/command preamble shared by every stage log. -/
def logPreamble (stage : Nat) (image : String) (files : List String) (cmd : String) : String :=
  stageHeader stage ++ "=== Image ===\n" ++ image ++ "\n\n=== Test Files ===\n"
    ++ filesChunk files ++ "\n=== Test Command ===\n" ++ cmd ++ "\n\n"

/-- The log synthesized when a stage's test execution times out. -/
def timeoutLog (stage : Nat) (image : String) (files : List String) (cmd : String)
    (timeout : Nat) : String :=
  logPreamble stage image files cmd
    ++ "=== TIMEOUT ===\nTest execution exceeded timeout of "
    ++ toString timeout ++ " seconds\n"

/-- The full log written when a stage's test execution completes. -/
def stageLog (stage : Nat) (image : String) (files : List String) (cmd output : String)
    (exitCode : Int) (timeVal : Nat) (passed : Bool) : String :=
  logPreamble stage image files cmd
    ++ "=== Test Output ===\n" ++ output
    ++ "\n\n=== Exit Code ===\n" ++ toString exitCode
    ++ "\n\n=== Test Time ===\n" ++ toString timeVal ++ " seconds"
    ++ "\n\n=== All Passed ===\n" ++ pyBoolStr passed ++ "\n"

/-- Exit through the `except Exception` handler (lines 539–550): record the
error status and message, write `error.log`, keep whatever container is
currently held for the `finally` block. -/
def errorOut (r : EvalResult) (m : String) (evs : List Ev) (live : Bool) (nowStr : String) :
    EvalResult × List Ev × Bool :=
  ({ r with status := "error", message := "Unexpected error: " ++ m },
   evs ++ [Ev.log "error.log"
     ("=== Unexpected Error ===\nError: " ++ m ++ "\nInstance: " ++ r.instance_id
       ++ "\nTimestamp: " ++ nowStr ++ "\n")],
   live)

/-- A terminal-status early `return` from inside the `try` block: set status
and message, write the stage log, leave the container to `finally`. -/
def failOut (r : EvalResult) (st msg logName logContent : String) (evs : List Ev) :
    EvalResult × List Ev × Bool :=
  ({ r with status := st, message := msg }, evs ++ [Ev.log logName logContent], true)

/-- Input validation and image lookup (lines 251–295), all before any
container is allocated: missing instance dir, missing `instance.json`,
empty `test_patch`, empty test-file extraction, missing image. -/
def validate (instance_id ns arch tag : String) (e : Env) : Except EvalResult EvalResult :=
  let r0 := initResult instance_id e.nowStr
  if e.dirExists = false then
    Except.error { r0 with status := "no_instance_dir", message := "Instance directory does not exist" }
  else if e.jsonExists = false then
    Except.error { r0 with status := "no_instance_json", message := "instance.json not found" }
  else if e.testPatch = "" then
    Except.error { r0 with status := "no_test_patch", message := "test_patch is empty" }
  else if extract_test_files_from_patch e.testPatch = [] then
    Except.error { r0 with status := "no_test_files", message := "No test files found in test_patch" }
  else
    let imageName := get_image_name instance_id ns arch tag
    let r1 := { r0 with image_name := some imageName }
    if e.imageExists = false then
      Except.error { r1 with status := "no_image", message := "Docker image not found: " ++ imageName }
    else Except.ok r1

/-- Stage 1 (lines 309–404): start a container, optionally bootstrap pytest,
deliver and apply the test patch, run the tests under the bound, write the
stage log, then stop and remove the stage-1 container.  `Except.error` is a
terminal exit carrying `(result, events, container-still-held)`;
`Except.ok` carries the updated result and events with no container held. -/
def runStage1 (ip : Bool) (timeout : Nat) (imageName testCmd : String)
    (testFiles : List String) (e : Env) (r : EvalResult) :
    Except (EvalResult × List Ev × Bool) (EvalResult × List Ev) :=
  match e.s1.create with
  | some m => Except.error (errorOut r m [] false e.nowStr)
  | none =>
    match pytestGate ip e.s1.pytest with
    | PyResult.raisedOut m => Except.error (errorOut r m [Ev.create] true e.nowStr)
    | PyResult.ret pyOk pmsg =>
      if pyOk = false then
        Except.error (failOut r "pytest_install_failed" ("Failed to install pytest: " ++ pmsg)
          "test_only.log" ("=== Failed to install pytest ===\n" ++ pmsg) [Ev.create])
      else
        match write_patch_to_container e.s1.putA e.testPatch "/tmp/test.patch" with
        | Except.error m => Except.error (errorOut r m [Ev.create] true e.nowStr)
        | Except.ok _ =>
          match e.s1.applyA with
          | RawExec.raised m => Except.error (errorOut r m [Ev.create] true e.nowStr)
          | RawExec.done ac ao =>
            if ac ≠ 0 then
              Except.error (failOut r "test_patch_apply_failed"
                ("Failed to apply test_patch: " ++ ao)
                "test_only.log" ("=== Failed to apply test_patch ===\n" ++ ao) [Ev.create])
            else
              match exec_run_with_timeout e.s1.testDuration timeout e.s1.testRaw with
              | ExecRes.timeoutRaised =>
                Except.error (failOut r "test_only_timeout"
                  ("Stage 1 test execution timed out after " ++ toString timeout ++ "s")
                  "test_only.log" (timeoutLog 1 imageName testFiles testCmd timeout)
                  [Ev.create, Ev.execTest 1])
              | ExecRes.exnRaised m =>
                Except.error (errorOut r m [Ev.create, Ev.execTest 1] true e.nowStr)
              | ExecRes.ok tc tout =>
                let passed1 := check_test_results tc
                let r2 := { r with test_only_time := e.time1, test_only_passed := passed1 }
                let evs := [Ev.create, Ev.execTest 1,
                  Ev.log "test_only.log" (stageLog 1 imageName testFiles testCmd tout tc e.time1 passed1)]
                match e.midStop with
                | some m => Except.error (errorOut r2 m (evs ++ [Ev.stopA false]) true e.nowStr)
                | none =>
                  match e.midRemove with
                  | some m =>
                    Except.error (errorOut r2 m (evs ++ [Ev.stopA true, Ev.removeA false]) true e.nowStr)
                  | none => Except.ok (r2, evs ++ [Ev.stopA true, Ev.removeA true])

/-- Stage 2 and classification (lines 406–534): start a fresh container,
optionally bootstrap pytest, deliver and apply the fix patch then the test
patch, run the tests under the bound, write the stage log, and classify. -/
def runStage2 (ip : Bool) (timeout : Nat) (imageName testCmd : String)
    (testFiles : List String) (e : Env) (r : EvalResult) :
    EvalResult × List Ev × Bool :=
  match e.s2.create with
  | some m => errorOut r m [] false e.nowStr
  | none =>
    match pytestGate ip e.s2.pytest with
    | PyResult.raisedOut m => errorOut r m [Ev.create] true e.nowStr
    | PyResult.ret pyOk pmsg =>
      if pyOk = false then
        failOut r "pytest_install_failed_stage2"
          ("Failed to install pytest in stage 2: " ++ pmsg)
          "both_patches.log" ("=== Failed to install pytest (stage 2) ===\n" ++ pmsg) [Ev.create]
      else
        match write_patch_to_container e.s2.putA e.fixPatch "/tmp/fix.patch" with
        | Except.error m => errorOut r m [Ev.create] true e.nowStr
        | Except.ok _ =>
          match e.s2.applyA with
          | RawExec.raised m => errorOut r m [Ev.create] true e.nowStr
          | RawExec.done fc fo =>
            if fc ≠ 0 then
              failOut r "fix_patch_apply_failed" ("Failed to apply fix_patch: " ++ fo)
                "both_patches.log" ("=== Failed to apply fix_patch ===\n" ++ fo) [Ev.create]
            else
              match write_patch_to_container e.s2.putB e.testPatch "/tmp/test.patch" with
              | Except.error m => errorOut r m [Ev.create] true e.nowStr
              | Except.ok _ =>
                match e.s2.applyB with
                | RawExec.raised m => errorOut r m [Ev.create] true e.nowStr
                | RawExec.done tc2 to2 =>
                  if tc2 ≠ 0 then
                    failOut r "test_patch_apply_failed_stage2"
                      ("Failed to apply test_patch in stage 2: " ++ to2)
                      "both_patches.log" ("=== Failed to apply test_patch (stage 2) ===\n" ++ to2)
                      [Ev.create]
                  else
                    match exec_run_with_timeout e.s2.testDuration timeout e.s2.testRaw with
                    | ExecRes.timeoutRaised =>
                      failOut r "both_patches_timeout"
                        ("Stage 2 test execution timed out after " ++ toString timeout ++ "s")
                        "both_patches.log" (timeoutLog 2 imageName testFiles testCmd timeout)
                        [Ev.create, Ev.execTest 2]
                    | ExecRes.exnRaised m =>
                      errorOut r m [Ev.create, Ev.execTest 2] true e.nowStr
                    | ExecRes.ok bc bo =>
                      let passed2 := check_test_results bc
                      let r3 := { r with
                        both_patches_time := e.time2, both_patches_passed := passed2 }
                      let envp := r3.both_patches_passed
                      let f2p := !r3.test_only_passed && r3.both_patches_passed
                      let st := if f2p then "f2p_passed" else if envp then "env_passed" else "failed"
                      let msg :=
                        if f2p then "F2P passed: test_only failed, both_patches passed"
                        else if envp then "Env passed: both_patches passed (but test_only also passed)"
                        else "Both_patches stage failed"
                      ({ r3 with env_pass := envp, f2p_pass := f2p, status := st, message := msg },
                       [Ev.create, Ev.execTest 2,
                        Ev.log "both_patches.log"
                          (stageLog 2 imageName testFiles testCmd bo bc e.time2 passed2)],
                       true)

/-- The body of `evaluate_single_instance` up to (but not including) the
`finally` block: validation, stage 1, inter-stage teardown, stage 2,
classification.  Returns the result record, the events so far, and whether
a container is still held when `finally` runs. -/
def evalBody (instance_id ns arch tag : String) (timeout : Nat) (ip : Bool) (e : Env) :
    EvalResult × List Ev × Bool :=
  match validate instance_id ns arch tag e with
  | Except.error r => (r, [], false)
  | Except.ok r1 =>
    let testFiles := extract_test_files_from_patch e.testPatch
    let imageName := get_image_name instance_id ns arch tag
    let testCmd := "cd /testbed && pytest -rA " ++ joinSpace testFiles ++ " -v"
    match runStage1 ip timeout imageName testCmd testFiles e r1 with
    | Except.error out => out
    | Except.ok (r2, evs1) =>
      match runStage2 ip timeout imageName testCmd testFiles e r2 with
      | (r3, evs2, live) => (r3, evs1 ++ evs2, live)

/-- Shallow embedding of `evaluate_single_instance` (lines 214–564).  The
`finally` block (lines 552–562) attempts `container.stop` and
`container.remove` when a container is still held, with both outcomes
supplied by the caller-side oracle (`finStopOk`, `finRemoveOk`) and any
failure swallowed. -/
def evaluate_single_instance (instance_id ns arch tag : String) (timeout : Nat) (ip : Bool)
    (e : Env) (finStopOk finRemoveOk : Bool) : EvalResult × List Ev :=
  match evalBody instance_id ns arch tag timeout ip e with
  | (r, evs, live) =>
    (r, evs ++ if live then [Ev.stopA finStopOk, Ev.removeA finRemoveOk] else [])

/-! ## Container-lifecycle trace semantics -/

/-- One step of the container-count automaton: tracks how many containers
exist, refusing (`none`) any trace that creates a second container while one
exists, or stops/removes/uses a container when none exists.  A successful
remove is the only action that ends a container's existence. -/
def stepEv (st : Option Nat) (ev : Ev) : Option Nat :=
  match st with
  | none => none
  | some n =>
    match ev with
    | Ev.create => if n = 0 then some 1 else none
    | Ev.stopA _ => if n = 1 then some 1 else none
    | Ev.removeA true => if n = 1 then some 0 else none
    | Ev.removeA false => if n = 1 then some 1 else none
    | Ev.execTest _ => if n = 1 then some 1 else none
    | Ev.log _ _ => some n

/-- Run the automaton over a trace from `n` live containers. -/
def consume (n : Option Nat) (evs : List Ev) : Option Nat :=
  evs.foldl stepEv n

/-- Run the automaton over a trace from zero live containers: `some k` means
the trace is well-formed (never more than one container at a time, every
container action on an existing container) and leaves `k` containers. -/
def runTrace (evs : List Ev) : Option Nat :=
  consume (some 0) evs

def isCreate : Ev → Bool
  | Ev.create => true
  | _ => false

def isStopA : Ev → Bool
  | Ev.stopA _ => true
  | _ => false

def isRemoveA : Ev → Bool
  | Ev.removeA _ => true
  | _ => false

def isExecTest1 : Ev → Bool
  | Ev.execTest 1 => true
  | _ => false

/-! ## Orchestrator (`main`) aggregation and exit code -/

/-- The counter block of `main`'s `results` dictionary (lines 676–684). -/
structure Tally where
  total : Nat
  f2p_passed : Nat
  env_passed : Nat
  failed : Nat
  no_image : Nat
  errorCount : Nat
  deriving Repr, DecidableEq

/-- One result's counter update (lines 716–731 / 757–772): exactly one of
`f2p_passed`/`env_passed`/`failed` is incremented, in that priority order,
and within the `failed` branch the `no_image`/`error` breakdown counters. -/
def updateTally (t : Tally) (r : EvalResult) : Tally :=
  if r.f2p_pass then { t with f2p_passed := t.f2p_passed + 1 }
  else if r.env_pass then { t with env_passed := t.env_passed + 1 }
  else
    let t' := { t with failed := t.failed + 1 }
    if r.status = "no_image" then { t' with no_image := t'.no_image + 1 }
    else if r.status = "error" then { t' with errorCount := t'.errorCount + 1 }
    else t'

/-- `main`'s counters after all instances complete: `total` is the number of
dispatched instances (one result record per instance), the rest accumulate
per result. -/
def tallyAll (rs : List EvalResult) : Tally :=
  rs.foldl updateTally
    { total := rs.length, f2p_passed := 0, env_passed := 0, failed := 0,
      no_image := 0, errorCount := 0 }

/-- The `failure_breakdown` object of the written statistics (lines
799–802): it itemizes exactly the two statuses `no_image` and `error`. -/
def failureBreakdown (t : Tally) : List (String × Nat) :=
  [("no_image", t.no_image), ("error", t.errorCount)]

/-- `main`'s return value (line 830): `0` iff the `failed` counter is zero. -/
def mainExit (rs : List EvalResult) : Nat :=
  if (tallyAll rs).failed = 0 then 0 else 1

/-! ## Concrete sample oracles (used by witnesses) -/

/-- A pytest oracle on which every probe succeeds immediately. -/
def samplePy : PyEnv :=
  { check := RawExec.done 0 "", installDuration := 0,
    installRaw := RawExec.done 0 "", verify := RawExec.done 0 "" }

/-- A stage oracle on which everything succeeds and the tests exit with
code `c`. -/
def sampleStage (c : Int) : StageEnv :=
  { create := none, pytest := samplePy, putA := true, applyA := RawExec.done 0 "",
    putB := true, applyB := RawExec.done 0 "", testDuration := 0,
    testRaw := RawExec.done c "out" }

/-- A fully successful evaluation oracle whose stage-1 tests exit with `c1`
and stage-2 tests with `c2`. -/
def sampleEnv (c1 c2 : Int) : Env :=
  { dirExists := true, jsonExists := true,
    testPatch := "diff --git a/tests/test_a.py b/tests/test_a.py",
    fixPatch := "fix", imageExists := true,
    s1 := sampleStage c1, s2 := sampleStage c2,
    time1 := 3, time2 := 4, midStop := none, midRemove := none, nowStr := "t" }

/-! ## Substring lemmas -/

lemma substrAux_nil_pat (l : List Char) : substrAux [] l = true := by
  cases l <;> simp [substrAux]

lemma substrAux_append_left (p s t : List Char) (h : substrAux p t = true) :
    substrAux p (s ++ t) = true := by
  induction s with
  | nil => simpa using h
  | cons c cs ih =>
    simp only [List.cons_append, substrAux, Bool.or_eq_true]
    exact Or.inr ih

lemma substrAux_append_right (p s t : List Char) (h : substrAux p s = true) :
    substrAux p (s ++ t) = true := by
  induction s with
  | nil =>
    simp only [substrAux, List.isEmpty_iff] at h
    subst h
    exact substrAux_nil_pat _
  | cons c cs ih =>
    simp only [substrAux, Bool.or_eq_true, List.isPrefixOf_iff_prefix] at h
    rcases h with h | h
    · simp only [List.cons_append, substrAux, Bool.or_eq_true, List.isPrefixOf_iff_prefix]
      exact Or.inl (h.trans (List.prefix_append _ t))
    · simp only [List.cons_append, substrAux, Bool.or_eq_true]
      exact Or.inr (ih h)

lemma substrAux_self (l : List Char) : substrAux l l = true := by
  cases l with
  | nil => simp [substrAux]
  | cons c cs =>
    simp only [substrAux, Bool.or_eq_true, List.isPrefixOf_iff_prefix]
    exact Or.inl (List.prefix_refl _)

lemma toList_append (s t : String) : (s ++ t).toList = s.toList ++ t.toList := rfl

lemma hasSubstr_append_left (s t p : String) (h : hasSubstr t p = true) :
    hasSubstr (s ++ t) p = true := by
  unfold hasSubstr at h ⊢
  rw [toList_append]
  exact substrAux_append_left _ _ _ h

lemma hasSubstr_append_right (s t p : String) (h : hasSubstr s p = true) :
    hasSubstr (s ++ t) p = true := by
  unfold hasSubstr at h ⊢
  rw [toList_append]
  exact substrAux_append_right _ _ _ h

lemma hasSubstr_self (s : String) : hasSubstr s s = true :=
  substrAux_self _

/-- The synthesized timeout log always contains the `TIMEOUT` marker. -/
lemma timeoutLog_marker (stage : Nat) (image : String) (files : List String)
    (cmd : String) (timeout : Nat) :
    hasSubstr (timeoutLog stage image files cmd timeout) "TIMEOUT" = true := by
  unfold timeoutLog
  apply hasSubstr_append_right
  apply hasSubstr_append_right
  apply hasSubstr_append_left
  decide

/-- The stage-1 apply-failure log contains the apply call's raw output. -/
lemma applyFailLog_contains (ao : String) :
    hasSubstr ("=== Failed to apply test_patch ===\n" ++ ao) ao = true :=
  hasSubstr_append_left _ _ _ (hasSubstr_self ao)

/-! ## Path characterizations of the evaluator -/

lemma validate_ok (instance_id ns arch tag : String) (e : Env)
    (hdir : e.dirExists = true) (hjson : e.jsonExists = true)
    (hpatch : e.testPatch ≠ "")
    (hfiles : extract_test_files_from_patch e.testPatch ≠ [])
    (himg : e.imageExists = true) :
    validate instance_id ns arch tag e =
      Except.ok { initResult instance_id e.nowStr with
                  image_name := some (get_image_name instance_id ns arch tag) } := by
  simp [validate, hdir, hjson, hpatch, hfiles, himg]

/-- Stage 1 when everything succeeds through the inter-stage teardown. -/
lemma runStage1_ok (ip : Bool) (timeout : Nat) (imageName testCmd : String)
    (testFiles : List String) (e : Env) (r : EvalResult)
    (pm ao tout : String) (tc : Int)
    (hc : e.s1.create = none)
    (hpy : pytestGate ip e.s1.pytest = PyResult.ret true pm)
    (hput : e.s1.putA = true)
    (happ : e.s1.applyA = RawExec.done 0 ao)
    (hdur : e.s1.testDuration ≤ timeout)
    (hraw : e.s1.testRaw = RawExec.done tc tout)
    (hstop : e.midStop = none) (hrem : e.midRemove = none) :
    runStage1 ip timeout imageName testCmd testFiles e r =
      Except.ok
        ({ r with test_only_time := e.time1, test_only_passed := check_test_results tc },
         [Ev.create, Ev.execTest 1,
          Ev.log "test_only.log"
            (stageLog 1 imageName testFiles testCmd tout tc e.time1 (check_test_results tc)),
          Ev.stopA true, Ev.removeA true]) := by
  simp [runStage1, hc, hpy, hput, happ, hraw, hstop, hrem,
    write_patch_to_container, exec_run_with_timeout, Nat.not_lt.mpr hdur]

/-- Stage 1 when `git apply` of the test patch exits non-zero. -/
lemma runStage1_applyFail (ip : Bool) (timeout : Nat) (imageName testCmd : String)
    (testFiles : List String) (e : Env) (r : EvalResult)
    (pm ao : String) (ac : Int)
    (hc : e.s1.create = none)
    (hpy : pytestGate ip e.s1.pytest = PyResult.ret true pm)
    (hput : e.s1.putA = true)
    (happ : e.s1.applyA = RawExec.done ac ao)
    (hac : ac ≠ 0) :
    runStage1 ip timeout imageName testCmd testFiles e r =
      Except.error
        ({ r with status := "test_patch_apply_failed",
                  message := "Failed to apply test_patch: " ++ ao },
         [Ev.create, Ev.log "test_only.log" ("=== Failed to apply test_patch ===\n" ++ ao)],
         true) := by
  simp [runStage1, hc, hpy, hput, happ, hac, write_patch_to_container, failOut]

/-- Stage 1 when the bounded test execution exceeds the bound. -/
lemma runStage1_timeout (ip : Bool) (timeout : Nat) (imageName testCmd : String)
    (testFiles : List String) (e : Env) (r : EvalResult)
    (pm ao : String)
    (hc : e.s1.create = none)
    (hpy : pytestGate ip e.s1.pytest = PyResult.ret true pm)
    (hput : e.s1.putA = true)
    (happ : e.s1.applyA = RawExec.done 0 ao)
    (hdur : timeout < e.s1.testDuration) :
    runStage1 ip timeout imageName testCmd testFiles e r =
      Except.error
        ({ r with status := "test_only_timeout",
                  message := "Stage 1 test execution timed out after " ++ toString timeout ++ "s" },
         [Ev.create, Ev.execTest 1,
          Ev.log "test_only.log" (timeoutLog 1 imageName testFiles testCmd timeout)],
         true) := by
  simp [runStage1, hc, hpy, hput, happ, write_patch_to_container, failOut,
    exec_run_with_timeout, hdur]

/-- Stage 2 when everything succeeds through classification. -/
lemma runStage2_classified (ip : Bool) (timeout : Nat) (imageName testCmd : String)
    (testFiles : List String) (e : Env) (r : EvalResult)
    (pm fo to2 bo : String) (bc : Int)
    (hc : e.s2.create = none)
    (hpy : pytestGate ip e.s2.pytest = PyResult.ret true pm)
    (hputA : e.s2.putA = true)
    (happA : e.s2.applyA = RawExec.done 0 fo)
    (hputB : e.s2.putB = true)
    (happB : e.s2.applyB = RawExec.done 0 to2)
    (hdur : e.s2.testDuration ≤ timeout)
    (hraw : e.s2.testRaw = RawExec.done bc bo) :
    runStage2 ip timeout imageName testCmd testFiles e r =
      ({ r with
          both_patches_time := e.time2,
          both_patches_passed := check_test_results bc,
          env_pass := check_test_results bc,
          f2p_pass := !r.test_only_passed && check_test_results bc,
          status :=
            if !r.test_only_passed && check_test_results bc then "f2p_passed"
            else if check_test_results bc then "env_passed" else "failed",
          message :=
            if !r.test_only_passed && check_test_results bc then
              "F2P passed: test_only failed, both_patches passed"
            else if check_test_results bc then
              "Env passed: both_patches passed (but test_only also passed)"
            else "Both_patches stage failed" },
       [Ev.create, Ev.execTest 2,
        Ev.log "both_patches.log"
          (stageLog 2 imageName testFiles testCmd bo bc e.time2 (check_test_results bc))],
       true) := by
  simp [runStage2, hc, hpy, hputA, happA, hputB, happB, hraw,
    write_patch_to_container, exec_run_with_timeout, Nat.not_lt.mpr hdur]

/-- Stage 2 when the bounded test execution exceeds the bound. -/
lemma runStage2_timeout (ip : Bool) (timeout : Nat) (imageName testCmd : String)
    (testFiles : List String) (e : Env) (r : EvalResult)
    (pm fo to2 : String)
    (hc : e.s2.create = none)
    (hpy : pytestGate ip e.s2.pytest = PyResult.ret true pm)
    (hputA : e.s2.putA = true)
    (happA : e.s2.applyA = RawExec.done 0 fo)
    (hputB : e.s2.putB = true)
    (happB : e.s2.applyB = RawExec.done 0 to2)
    (hdur : timeout < e.s2.testDuration) :
    runStage2 ip timeout imageName testCmd testFiles e r =
      ({ r with status := "both_patches_timeout",
                message := "Stage 2 test execution timed out after " ++ toString timeout ++ "s" },
       [Ev.create, Ev.execTest 2,
        Ev.log "both_patches.log" (timeoutLog 2 imageName testFiles testCmd timeout)],
       true) := by
  simp [runStage2, hc, hpy, hputA, happA, hputB, happB,
    write_patch_to_container, failOut, exec_run_with_timeout, hdur]

/-- Any validation failure is returned as-is, with no events at all. -/
lemma evaluate_validation_error (instance_id ns arch tag : String) (timeout : Nat)
    (ip : Bool) (e : Env) (fs fr : Bool) (r : EvalResult)
    (h : validate instance_id ns arch tag e = Except.error r) :
    evaluate_single_instance instance_id ns arch tag timeout ip e fs fr = (r, []) := by
  simp [evaluate_single_instance, evalBody, h]

/-- The fully successful two-stage run, ending in classification. -/
lemma evaluate_classified (instance_id ns arch tag : String) (timeout : Nat)
    (ip : Bool) (e : Env) (fs fr : Bool)
    (pm1 ao1 tout1 pm2 fo to2 bo : String) (tc bc : Int)
    (hdir : e.dirExists = true) (hjson : e.jsonExists = true)
    (hpatch : e.testPatch ≠ "")
    (hfiles : extract_test_files_from_patch e.testPatch ≠ [])
    (himg : e.imageExists = true)
    (hc1 : e.s1.create = none)
    (hpy1 : pytestGate ip e.s1.pytest = PyResult.ret true pm1)
    (hput1 : e.s1.putA = true)
    (happ1 : e.s1.applyA = RawExec.done 0 ao1)
    (hdur1 : e.s1.testDuration ≤ timeout)
    (hraw1 : e.s1.testRaw = RawExec.done tc tout1)
    (hstop : e.midStop = none) (hrem : e.midRemove = none)
    (hc2 : e.s2.create = none)
    (hpy2 : pytestGate ip e.s2.pytest = PyResult.ret true pm2)
    (hput2 : e.s2.putA = true)
    (happ2 : e.s2.applyA = RawExec.done 0 fo)
    (hput3 : e.s2.putB = true)
    (happ3 : e.s2.applyB = RawExec.done 0 to2)
    (hdur2 : e.s2.testDuration ≤ timeout)
    (hraw2 : e.s2.testRaw = RawExec.done bc bo) :
    evaluate_single_instance instance_id ns arch tag timeout ip e fs fr =
      ({ instance_id := instance_id
         status :=
           if !check_test_results tc && check_test_results bc then "f2p_passed"
           else if check_test_results bc then "env_passed" else "failed"
         env_pass := check_test_results bc
         f2p_pass := !check_test_results tc && check_test_results bc
         message :=
           if !check_test_results tc && check_test_results bc then
             "F2P passed: test_only failed, both_patches passed"
           else if check_test_results bc then
             "Env passed: both_patches passed (but test_only also passed)"
           else "Both_patches stage failed"
         test_only_time := e.time1
         both_patches_time := e.time2
         test_only_passed := check_test_results tc
         both_patches_passed := check_test_results bc
         image_name := some (get_image_name instance_id ns arch tag)
         timestamp := e.nowStr },
       [Ev.create, Ev.execTest 1,
        Ev.log "test_only.log"
          (stageLog 1 (get_image_name instance_id ns arch tag)
            (extract_test_files_from_patch e.testPatch)
            ("cd /testbed && pytest -rA "
              ++ joinSpace (extract_test_files_from_patch e.testPatch) ++ " -v")
            tout1 tc e.time1 (check_test_results tc)),
        Ev.stopA true, Ev.removeA true,
        Ev.create, Ev.execTest 2,
        Ev.log "both_patches.log"
          (stageLog 2 (get_image_name instance_id ns arch tag)
            (extract_test_files_from_patch e.testPatch)
            ("cd /testbed && pytest -rA "
              ++ joinSpace (extract_test_files_from_patch e.testPatch) ++ " -v")
            bo bc e.time2 (check_test_results bc)),
        Ev.stopA fs, Ev.removeA fr]) := by
  have h1 := validate_ok instance_id ns arch tag e hdir hjson hpatch hfiles himg
  have h2 := fun r => runStage1_ok ip timeout (get_image_name instance_id ns arch tag)
    ("cd /testbed && pytest -rA " ++ joinSpace (extract_test_files_from_patch e.testPatch) ++ " -v")
    (extract_test_files_from_patch e.testPatch) e r pm1 ao1 tout1 tc
    hc1 hpy1 hput1 happ1 hdur1 hraw1 hstop hrem
  have h3 := fun r => runStage2_classified ip timeout (get_image_name instance_id ns arch tag)
    ("cd /testbed && pytest -rA " ++ joinSpace (extract_test_files_from_patch e.testPatch) ++ " -v")
    (extract_test_files_from_patch e.testPatch) e r pm2 fo to2 bo bc
    hc2 hpy2 hput2 happ2 hput3 happ3 hdur2 hraw2
  simp [evaluate_single_instance, evalBody, h1, h2, h3, initResult]

/-- The run that aborts in stage 1 because `git apply` of the test patch
exits non-zero. -/
lemma evaluate_applyFail (instance_id ns arch tag : String) (timeout : Nat)
    (ip : Bool) (e : Env) (fs fr : Bool) (pm ao : String) (ac : Int)
    (hdir : e.dirExists = true) (hjson : e.jsonExists = true)
    (hpatch : e.testPatch ≠ "")
    (hfiles : extract_test_files_from_patch e.testPatch ≠ [])
    (himg : e.imageExists = true)
    (hc1 : e.s1.create = none)
    (hpy1 : pytestGate ip e.s1.pytest = PyResult.ret true pm)
    (hput1 : e.s1.putA = true)
    (happ1 : e.s1.applyA = RawExec.done ac ao)
    (hac : ac ≠ 0) :
    evaluate_single_instance instance_id ns arch tag timeout ip e fs fr =
      ({ instance_id := instance_id
         status := "test_patch_apply_failed"
         env_pass := false
         f2p_pass := false
         message := "Failed to apply test_patch: " ++ ao
         test_only_time := 0
         both_patches_time := 0
         test_only_passed := false
         both_patches_passed := false
         image_name := some (get_image_name instance_id ns arch tag)
         timestamp := e.nowStr },
       [Ev.create,
        Ev.log "test_only.log" ("=== Failed to apply test_patch ===\n" ++ ao),
        Ev.stopA fs, Ev.removeA fr]) := by
  have h1 := validate_ok instance_id ns arch tag e hdir hjson hpatch hfiles himg
  have h2 := fun r => runStage1_applyFail ip timeout (get_image_name instance_id ns arch tag)
    ("cd /testbed && pytest -rA " ++ joinSpace (extract_test_files_from_patch e.testPatch) ++ " -v")
    (extract_test_files_from_patch e.testPatch) e r pm ao ac hc1 hpy1 hput1 happ1 hac
  simp [evaluate_single_instance, evalBody, h1, h2, initResult]

/-- The run that aborts because stage 1's test execution times out. -/
lemma evaluate_stage1_timeout (instance_id ns arch tag : String) (timeout : Nat)
    (ip : Bool) (e : Env) (fs fr : Bool) (pm ao : String)
    (hdir : e.dirExists = true) (hjson : e.jsonExists = true)
    (hpatch : e.testPatch ≠ "")
    (hfiles : extract_test_files_from_patch e.testPatch ≠ [])
    (himg : e.imageExists = true)
    (hc1 : e.s1.create = none)
    (hpy1 : pytestGate ip e.s1.pytest = PyResult.ret true pm)
    (hput1 : e.s1.putA = true)
    (happ1 : e.s1.applyA = RawExec.done 0 ao)
    (hdur : timeout < e.s1.testDuration) :
    evaluate_single_instance instance_id ns arch tag timeout ip e fs fr =
      ({ instance_id := instance_id
         status := "test_only_timeout"
         env_pass := false
         f2p_pass := false
         message := "Stage 1 test execution timed out after " ++ toString timeout ++ "s"
         test_only_time := 0
         both_patches_time := 0
         test_only_passed := false
         both_patches_passed := false
         image_name := some (get_image_name instance_id ns arch tag)
         timestamp := e.nowStr },
       [Ev.create, Ev.execTest 1,
        Ev.log "test_only.log"
          (timeoutLog 1 (get_image_name instance_id ns arch tag)
            (extract_test_files_from_patch e.testPatch)
            ("cd /testbed && pytest -rA "
              ++ joinSpace (extract_test_files_from_patch e.testPatch) ++ " -v") timeout),
        Ev.stopA fs, Ev.removeA fr]) := by
  have h1 := validate_ok instance_id ns arch tag e hdir hjson hpatch hfiles himg
  have h2 := fun r => runStage1_timeout ip timeout (get_image_name instance_id ns arch tag)
    ("cd /testbed && pytest -rA " ++ joinSpace (extract_test_files_from_patch e.testPatch) ++ " -v")
    (extract_test_files_from_patch e.testPatch) e r pm ao hc1 hpy1 hput1 happ1 hdur
  simp [evaluate_single_instance, evalBody, h1, h2, initResult]

/-- The run that completes stage 1 but aborts because stage 2's test
execution times out. -/
lemma evaluate_stage2_timeout (instance_id ns arch tag : String) (timeout : Nat)
    (ip : Bool) (e : Env) (fs fr : Bool)
    (pm1 ao1 tout1 pm2 fo to2 : String) (tc : Int)
    (hdir : e.dirExists = true) (hjson : e.jsonExists = true)
    (hpatch : e.testPatch ≠ "")
    (hfiles : extract_test_files_from_patch e.testPatch ≠ [])
    (himg : e.imageExists = true)
    (hc1 : e.s1.create = none)
    (hpy1 : pytestGate ip e.s1.pytest = PyResult.ret true pm1)
    (hput1 : e.s1.putA = true)
    (happ1 : e.s1.applyA = RawExec.done 0 ao1)
    (hdur1 : e.s1.testDuration ≤ timeout)
    (hraw1 : e.s1.testRaw = RawExec.done tc tout1)
    (hstop : e.midStop = none) (hrem : e.midRemove = none)
    (hc2 : e.s2.create = none)
    (hpy2 : pytestGate ip e.s2.pytest = PyResult.ret true pm2)
    (hput2 : e.s2.putA = true)
    (happ2 : e.s2.applyA = RawExec.done 0 fo)
    (hput3 : e.s2.putB = true)
    (happ3 : e.s2.applyB = RawExec.done 0 to2)
    (hdur2 : timeout < e.s2.testDuration) :
    evaluate_single_instance instance_id ns arch tag timeout ip e fs fr =
      ({ instance_id := instance_id
         status := "both_patches_timeout"
         env_pass := false
         f2p_pass := false
         message := "Stage 2 test execution timed out after " ++ toString timeout ++ "s"
         test_only_time := e.time1
         both_patches_time := 0
         test_only_passed := check_test_results tc
         both_patches_passed := false
         image_name := some (get_image_name instance_id ns arch tag)
         timestamp := e.nowStr },
       [Ev.create, Ev.execTest 1,
        Ev.log "test_only.log"
          (stageLog 1 (get_image_name instance_id ns arch tag)
            (extract_test_files_from_patch e.testPatch)
            ("cd /testbed && pytest -rA "
              ++ joinSpace (extract_test_files_from_patch e.testPatch) ++ " -v")
            tout1 tc e.time1 (check_test_results tc)),
        Ev.stopA true, Ev.removeA true,
        Ev.create, Ev.execTest 2,
        Ev.log "both_patches.log"
          (timeoutLog 2 (get_image_name instance_id ns arch tag)
            (extract_test_files_from_patch e.testPatch)
            ("cd /testbed && pytest -rA "
              ++ joinSpace (extract_test_files_from_patch e.testPatch) ++ " -v") timeout),
        Ev.stopA fs, Ev.removeA fr]) := by
  have h1 := validate_ok instance_id ns arch tag e hdir hjson hpatch hfiles himg
  have h2 := fun r => runStage1_ok ip timeout (get_image_name instance_id ns arch tag)
    ("cd /testbed && pytest -rA " ++ joinSpace (extract_test_files_from_patch e.testPatch) ++ " -v")
    (extract_test_files_from_patch e.testPatch) e r pm1 ao1 tout1 tc
    hc1 hpy1 hput1 happ1 hdur1 hraw1 hstop hrem
  have h3 := fun r => runStage2_timeout ip timeout (get_image_name instance_id ns arch tag)
    ("cd /testbed && pytest -rA " ++ joinSpace (extract_test_files_from_patch e.testPatch) ++ " -v")
    (extract_test_files_from_patch e.testPatch) e r pm2 fo to2
    hc2 hpy2 hput2 happ2 hput3 happ3 hdur2
  simp [evaluate_single_instance, evalBody, h1, h2, h3, initResult]

/-! ## Branch-exhaustive shape lemmas -/

/-- The result's pass flags agree with its terminal status: some pass flag
is set exactly when the status is `f2p_passed` or `env_passed`. -/
def flagStatusOk (r : EvalResult) : Prop :=
  (r.f2p_pass = true ∨ r.env_pass = true) ↔
    (r.status = "f2p_passed" ∨ r.status = "env_passed")

/-- Shape of every terminal exit that is not the classification exit,
relative to the result `base` it updates: the pass flags are untouched, the
status is not a passing one, the event trace is well-formed, and every
created container has a matching stop and remove attempt (counting one
pending pair for a container handed to `finally`). -/
def termShape (base : EvalResult) (out : EvalResult × List Ev × Bool) : Prop :=
  out.1.f2p_pass = base.f2p_pass ∧ out.1.env_pass = base.env_pass ∧
  out.1.status ≠ "f2p_passed" ∧ out.1.status ≠ "env_passed" ∧
  consume (some 0) out.2.1 = some (if out.2.2 then 1 else 0) ∧
  out.2.1.countP isCreate ≤ out.2.1.countP isStopA + (if out.2.2 then 1 else 0) ∧
  out.2.1.countP isCreate ≤ out.2.1.countP isRemoveA + (if out.2.2 then 1 else 0)

/-- Shape of the classification exit of stage 2. -/
def classifiedShape (out : EvalResult × List Ev × Bool) : Prop :=
  flagStatusOk out.1 ∧
  consume (some 0) out.2.1 = some 1 ∧ out.2.2 = true ∧
  out.2.1.countP isCreate ≤ out.2.1.countP isStopA + 1 ∧
  out.2.1.countP isCreate ≤ out.2.1.countP isRemoveA + 1

lemma stepEv_log (st : Option Nat) (a b : String) : stepEv st (Ev.log a b) = st := by
  cases st <;> rfl

lemma stepEv_none (ev : Ev) : stepEv none ev = none := rfl

lemma stepEv_create0 : stepEv (some 0) Ev.create = some 1 := rfl

lemma stepEv_stop1 (b : Bool) : stepEv (some 1) (Ev.stopA b) = some 1 := by
  cases b <;> rfl

lemma stepEv_removeT : stepEv (some 1) (Ev.removeA true) = some 0 := rfl

lemma stepEv_removeF : stepEv (some 1) (Ev.removeA false) = some 1 := rfl

lemma stepEv_exec1 (k : Nat) : stepEv (some 1) (Ev.execTest k) = some 1 := rfl

lemma errorOut_termShape (r : EvalResult) (m : String) (evs : List Ev) (live : Bool)
    (now : String)
    (h5 : consume (some 0) evs = some (if live then 1 else 0))
    (h6 : evs.countP isCreate ≤ evs.countP isStopA + (if live then 1 else 0))
    (h7 : evs.countP isCreate ≤ evs.countP isRemoveA + (if live then 1 else 0)) :
    termShape r (errorOut r m evs live now) := by
  refine ⟨rfl, rfl, ?_, ?_, ?_, ?_, ?_⟩
  · show ("error" : String) ≠ "f2p_passed"
    decide
  · show ("error" : String) ≠ "env_passed"
    decide
  · simpa [errorOut, consume, stepEv_log] using h5
  · simpa [errorOut, List.countP_append, isCreate, isStopA] using h6
  · simpa [errorOut, List.countP_append, isCreate, isRemoveA] using h7

lemma failOut_termShape (r : EvalResult) (st msg ln lc : String) (evs : List Ev)
    (h3 : st ≠ "f2p_passed") (h4 : st ≠ "env_passed")
    (h5 : consume (some 0) evs = some 1)
    (h6 : evs.countP isCreate ≤ evs.countP isStopA + 1)
    (h7 : evs.countP isCreate ≤ evs.countP isRemoveA + 1) :
    termShape r (failOut r st msg ln lc evs) := by
  refine ⟨rfl, rfl, h3, h4, ?_, ?_, ?_⟩
  · simpa [failOut, consume, stepEv_log] using h5
  · simpa [failOut, List.countP_append, isCreate, isStopA] using h6
  · simpa [failOut, List.countP_append, isCreate, isRemoveA] using h7

lemma validate_cases (instance_id ns arch tag : String) (e : Env) :
    (∃ r, validate instance_id ns arch tag e = Except.error r ∧
      r.f2p_pass = false ∧ r.env_pass = false ∧
      r.status ≠ "f2p_passed" ∧ r.status ≠ "env_passed") ∨
    (validate instance_id ns arch tag e =
      Except.ok { initResult instance_id e.nowStr with
                  image_name := some (get_image_name instance_id ns arch tag) } ∧
      (initResult instance_id e.nowStr).f2p_pass = false ∧
      (initResult instance_id e.nowStr).env_pass = false) := by
  simp only [validate]
  by_cases h1 : e.dirExists = false
  · rw [if_pos h1]
    exact Or.inl ⟨_, rfl, rfl, rfl,
      by show ("no_instance_dir" : String) ≠ "f2p_passed"; decide,
      by show ("no_instance_dir" : String) ≠ "env_passed"; decide⟩
  · rw [if_neg h1]
    by_cases h2 : e.jsonExists = false
    · rw [if_pos h2]
      exact Or.inl ⟨_, rfl, rfl, rfl,
        by show ("no_instance_json" : String) ≠ "f2p_passed"; decide,
        by show ("no_instance_json" : String) ≠ "env_passed"; decide⟩
    · rw [if_neg h2]
      by_cases h3 : e.testPatch = ""
      · rw [if_pos h3]
        exact Or.inl ⟨_, rfl, rfl, rfl,
          by show ("no_test_patch" : String) ≠ "f2p_passed"; decide,
          by show ("no_test_patch" : String) ≠ "env_passed"; decide⟩
      · rw [if_neg h3]
        by_cases h4 : extract_test_files_from_patch e.testPatch = []
        · rw [if_pos h4]
          exact Or.inl ⟨_, rfl, rfl, rfl,
            by show ("no_test_files" : String) ≠ "f2p_passed"; decide,
            by show ("no_test_files" : String) ≠ "env_passed"; decide⟩
        · rw [if_neg h4]
          by_cases h5 : e.imageExists = false
          · rw [if_pos h5]
            exact Or.inl ⟨_, rfl, rfl, rfl,
              by show ("no_image" : String) ≠ "f2p_passed"; decide,
              by show ("no_image" : String) ≠ "env_passed"; decide⟩
          · rw [if_neg h5]
            exact Or.inr ⟨rfl, rfl, rfl⟩

/-- Every exit of stage 1 is either a terminal exit of `termShape`, or the
success handing stage 2 a result with unchanged flags and a balanced trace. -/
lemma runStage1_cases (ip : Bool) (timeout : Nat) (imageName testCmd : String)
    (testFiles : List String) (e : Env) (r : EvalResult) :
    (∃ out, runStage1 ip timeout imageName testCmd testFiles e r = Except.error out ∧
      termShape r out) ∨
    (∃ r' evs, runStage1 ip timeout imageName testCmd testFiles e r = Except.ok (r', evs) ∧
      r'.f2p_pass = r.f2p_pass ∧ r'.env_pass = r.env_pass ∧
      consume (some 0) evs = some 0 ∧
      evs.countP isCreate ≤ evs.countP isStopA ∧
      evs.countP isCreate ≤ evs.countP isRemoveA) := by
  cases hcr : e.s1.create with
  | some m =>
    refine Or.inl ⟨errorOut r m [] false e.nowStr, by simp [runStage1, hcr], ?_⟩
    exact errorOut_termShape _ _ _ _ _ (by decide) (by decide) (by decide)
  | none =>
  cases hpg : pytestGate ip e.s1.pytest with
  | raisedOut m =>
    refine Or.inl ⟨errorOut r m [Ev.create] true e.nowStr, by simp [runStage1, hcr, hpg], ?_⟩
    exact errorOut_termShape _ _ _ _ _ (by decide) (by decide) (by decide)
  | ret pyOk pmsg =>
  cases pyOk with
  | false =>
    refine Or.inl ⟨failOut r "pytest_install_failed" ("Failed to install pytest: " ++ pmsg)
      "test_only.log" ("=== Failed to install pytest ===\n" ++ pmsg) [Ev.create],
      by simp [runStage1, hcr, hpg], ?_⟩
    exact failOut_termShape _ _ _ _ _ _ (by decide) (by decide) (by decide) (by decide) (by decide)
  | true =>
  cases hput : e.s1.putA with
  | false =>
    refine Or.inl ⟨errorOut r ("Failed to write patch to " ++ "/tmp/test.patch")
      [Ev.create] true e.nowStr,
      by simp [runStage1, hcr, hpg, hput, write_patch_to_container], ?_⟩
    exact errorOut_termShape _ _ _ _ _ (by decide) (by decide) (by decide)
  | true =>
  cases happ : e.s1.applyA with
  | raised m =>
    refine Or.inl ⟨errorOut r m [Ev.create] true e.nowStr,
      by simp [runStage1, hcr, hpg, hput, happ, write_patch_to_container], ?_⟩
    exact errorOut_termShape _ _ _ _ _ (by decide) (by decide) (by decide)
  | done ac ao =>
  by_cases hac : ac = 0
  case neg =>
    refine Or.inl ⟨failOut r "test_patch_apply_failed" ("Failed to apply test_patch: " ++ ao)
      "test_only.log" ("=== Failed to apply test_patch ===\n" ++ ao) [Ev.create],
      by simp [runStage1, hcr, hpg, hput, happ, hac, write_patch_to_container], ?_⟩
    exact failOut_termShape _ _ _ _ _ _ (by decide) (by decide) (by decide) (by decide) (by decide)
  case pos =>
  subst hac
  by_cases hdur : timeout < e.s1.testDuration
  case pos =>
    refine Or.inl ⟨failOut r "test_only_timeout"
      ("Stage 1 test execution timed out after " ++ toString timeout ++ "s")
      "test_only.log" (timeoutLog 1 imageName testFiles testCmd timeout)
      [Ev.create, Ev.execTest 1],
      by simp [runStage1, hcr, hpg, hput, happ, write_patch_to_container,
        exec_run_with_timeout, hdur], ?_⟩
    exact failOut_termShape _ _ _ _ _ _ (by decide) (by decide) (by decide) (by decide) (by decide)
  case neg =>
  cases hraw : e.s1.testRaw with
  | raised m =>
    refine Or.inl ⟨errorOut r m [Ev.create, Ev.execTest 1] true e.nowStr,
      by simp [runStage1, hcr, hpg, hput, happ, hraw, write_patch_to_container,
        exec_run_with_timeout, hdur], ?_⟩
    exact errorOut_termShape _ _ _ _ _ (by decide) (by decide) (by decide)
  | done tc tout =>
  cases hstop : e.midStop with
  | some m =>
    refine Or.inl ⟨errorOut
      { r with test_only_time := e.time1, test_only_passed := check_test_results tc } m
      [Ev.create, Ev.execTest 1,
       Ev.log "test_only.log"
         (stageLog 1 imageName testFiles testCmd tout tc e.time1 (check_test_results tc)),
       Ev.stopA false] true e.nowStr,
      by simp [runStage1, hcr, hpg, hput, happ, hraw, hstop, write_patch_to_container,
        exec_run_with_timeout, hdur], ?_⟩
    exact errorOut_termShape _ _ _ _ _
      (by simp [consume, stepEv_create0, stepEv_exec1, stepEv_log, stepEv_stop1])
      (by simp [List.countP_cons, isCreate, isStopA])
      (by simp [List.countP_cons, isCreate, isRemoveA])
  | none =>
  cases hrem : e.midRemove with
  | some m =>
    refine Or.inl ⟨errorOut
      { r with test_only_time := e.time1, test_only_passed := check_test_results tc } m
      [Ev.create, Ev.execTest 1,
       Ev.log "test_only.log"
         (stageLog 1 imageName testFiles testCmd tout tc e.time1 (check_test_results tc)),
       Ev.stopA true, Ev.removeA false] true e.nowStr,
      by simp [runStage1, hcr, hpg, hput, happ, hraw, hstop, hrem, write_patch_to_container,
        exec_run_with_timeout, hdur], ?_⟩
    exact errorOut_termShape _ _ _ _ _
      (by simp [consume, stepEv_create0, stepEv_exec1, stepEv_log, stepEv_stop1, stepEv_removeF])
      (by simp [List.countP_cons, isCreate, isStopA])
      (by simp [List.countP_cons, isCreate, isRemoveA])
  | none =>
    refine Or.inr ⟨{ r with test_only_time := e.time1, test_only_passed := check_test_results tc },
      [Ev.create, Ev.execTest 1,
       Ev.log "test_only.log"
         (stageLog 1 imageName testFiles testCmd tout tc e.time1 (check_test_results tc)),
       Ev.stopA true, Ev.removeA true],
      by simp [runStage1, hcr, hpg, hput, happ, hraw, hstop, hrem, write_patch_to_container,
        exec_run_with_timeout, hdur], rfl, rfl, ?_, ?_, ?_⟩
    · simp [consume, stepEv_create0, stepEv_exec1, stepEv_log, stepEv_stop1, stepEv_removeT]
    · simp [List.countP_cons, isCreate, isStopA]
    · simp [List.countP_cons, isCreate, isRemoveA]

/-- Every exit of stage 2 is either a terminal exit of `termShape` or the
classification exit. -/
lemma runStage2_cases (ip : Bool) (timeout : Nat) (imageName testCmd : String)
    (testFiles : List String) (e : Env) (r : EvalResult) :
    termShape r (runStage2 ip timeout imageName testCmd testFiles e r) ∨
    classifiedShape (runStage2 ip timeout imageName testCmd testFiles e r) := by
  cases hcr : e.s2.create with
  | some m =>
    refine Or.inl ?_
    rw [show runStage2 ip timeout imageName testCmd testFiles e r = errorOut r m [] false e.nowStr
      from by simp [runStage2, hcr]]
    exact errorOut_termShape _ _ _ _ _ (by decide) (by decide) (by decide)
  | none =>
  cases hpg : pytestGate ip e.s2.pytest with
  | raisedOut m =>
    refine Or.inl ?_
    rw [show runStage2 ip timeout imageName testCmd testFiles e r
        = errorOut r m [Ev.create] true e.nowStr from by simp [runStage2, hcr, hpg]]
    exact errorOut_termShape _ _ _ _ _ (by decide) (by decide) (by decide)
  | ret pyOk pmsg =>
  cases pyOk with
  | false =>
    refine Or.inl ?_
    rw [show runStage2 ip timeout imageName testCmd testFiles e r
        = failOut r "pytest_install_failed_stage2"
            ("Failed to install pytest in stage 2: " ++ pmsg)
            "both_patches.log" ("=== Failed to install pytest (stage 2) ===\n" ++ pmsg)
            [Ev.create] from by simp [runStage2, hcr, hpg]]
    exact failOut_termShape _ _ _ _ _ _ (by decide) (by decide) (by decide) (by decide) (by decide)
  | true =>
  cases hputA : e.s2.putA with
  | false =>
    refine Or.inl ?_
    rw [show runStage2 ip timeout imageName testCmd testFiles e r
        = errorOut r ("Failed to write patch to " ++ "/tmp/fix.patch") [Ev.create] true e.nowStr
      from by simp [runStage2, hcr, hpg, hputA, write_patch_to_container]]
    exact errorOut_termShape _ _ _ _ _ (by decide) (by decide) (by decide)
  | true =>
  cases happA : e.s2.applyA with
  | raised m =>
    refine Or.inl ?_
    rw [show runStage2 ip timeout imageName testCmd testFiles e r
        = errorOut r m [Ev.create] true e.nowStr
      from by simp [runStage2, hcr, hpg, hputA, happA, write_patch_to_container]]
    exact errorOut_termShape _ _ _ _ _ (by decide) (by decide) (by decide)
  | done fc fo =>
  by_cases hfc : fc = 0
  case neg =>
    refine Or.inl ?_
    rw [show runStage2 ip timeout imageName testCmd testFiles e r
        = failOut r "fix_patch_apply_failed" ("Failed to apply fix_patch: " ++ fo)
            "both_patches.log" ("=== Failed to apply fix_patch ===\n" ++ fo) [Ev.create]
      from by simp [runStage2, hcr, hpg, hputA, happA, hfc, write_patch_to_container]]
    exact failOut_termShape _ _ _ _ _ _ (by decide) (by decide) (by decide) (by decide) (by decide)
  case pos =>
  subst hfc
  cases hputB : e.s2.putB with
  | false =>
    refine Or.inl ?_
    rw [show runStage2 ip timeout imageName testCmd testFiles e r
        = errorOut r ("Failed to write patch to " ++ "/tmp/test.patch") [Ev.create] true e.nowStr
      from by simp [runStage2, hcr, hpg, hputA, happA, hputB, write_patch_to_container]]
    exact errorOut_termShape _ _ _ _ _ (by decide) (by decide) (by decide)
  | true =>
  cases happB : e.s2.applyB with
  | raised m =>
    refine Or.inl ?_
    rw [show runStage2 ip timeout imageName testCmd testFiles e r
        = errorOut r m [Ev.create] true e.nowStr
      from by simp [runStage2, hcr, hpg, hputA, happA, hputB, happB, write_patch_to_container]]
    exact errorOut_termShape _ _ _ _ _ (by decide) (by decide) (by decide)
  | done tc2 to2 =>
  by_cases htc : tc2 = 0
  case neg =>
    refine Or.inl ?_
    rw [show runStage2 ip timeout imageName testCmd testFiles e r
        = failOut r "test_patch_apply_failed_stage2"
            ("Failed to apply test_patch in stage 2: " ++ to2)
            "both_patches.log" ("=== Failed to apply test_patch (stage 2) ===\n" ++ to2)
            [Ev.create]
      from by simp [runStage2, hcr, hpg, hputA, happA, hputB, happB, htc,
        write_patch_to_container]]
    exact failOut_termShape _ _ _ _ _ _ (by decide) (by decide) (by decide) (by decide) (by decide)
  case pos =>
  subst htc
  by_cases hdur : timeout < e.s2.testDuration
  case pos =>
    refine Or.inl ?_
    rw [show runStage2 ip timeout imageName testCmd testFiles e r
        = failOut r "both_patches_timeout"
            ("Stage 2 test execution timed out after " ++ toString timeout ++ "s")
            "both_patches.log" (timeoutLog 2 imageName testFiles testCmd timeout)
            [Ev.create, Ev.execTest 2]
      from by simp [runStage2, hcr, hpg, hputA, happA, hputB, happB,
        write_patch_to_container, exec_run_with_timeout, hdur]]
    exact failOut_termShape _ _ _ _ _ _ (by decide) (by decide) (by decide) (by decide) (by decide)
  case neg =>
  cases hraw : e.s2.testRaw with
  | raised m =>
    refine Or.inl ?_
    rw [show runStage2 ip timeout imageName testCmd testFiles e r
        = errorOut r m [Ev.create, Ev.execTest 2] true e.nowStr
      from by simp [runStage2, hcr, hpg, hputA, happA, hputB, happB,
        write_patch_to_container, exec_run_with_timeout, hdur, hraw]]
    exact errorOut_termShape _ _ _ _ _ (by decide) (by decide) (by decide)
  | done bc bo =>
    refine Or.inr ?_
    rw [runStage2_classified ip timeout imageName testCmd testFiles e r pmsg fo to2 bo bc
      hcr hpg hputA happA hputB happB (Nat.not_lt.mp hdur) hraw]
    refine ⟨?_, ?_, rfl, ?_, ?_⟩
    · unfold flagStatusOk
      cases hq : check_test_results bc with
      | false => cases hp : r.test_only_passed <;> simp [hp, hq]
      | true => cases hp : r.test_only_passed <;> simp [hp, hq]
    · simp [consume, stepEv_create0, stepEv_exec1, stepEv_log]
    · simp [List.countP_cons, isCreate, isStopA]
    · simp [List.countP_cons, isCreate, isRemoveA]

lemma consume_append (n : Option Nat) (a b : List Ev) :
    consume n (a ++ b) = consume (consume n a) b := by
  simp [consume]

/-- Invariant shape of the whole evaluator body, over every branch. -/
def bodyShape (out : EvalResult × List Ev × Bool) : Prop :=
  flagStatusOk out.1 ∧
  consume (some 0) out.2.1 = some (if out.2.2 then 1 else 0) ∧
  out.2.1.countP isCreate ≤ out.2.1.countP isStopA + (if out.2.2 then 1 else 0) ∧
  out.2.1.countP isCreate ≤ out.2.1.countP isRemoveA + (if out.2.2 then 1 else 0)

lemma evalBody_shape (instance_id ns arch tag : String) (timeout : Nat) (ip : Bool)
    (e : Env) : bodyShape (evalBody instance_id ns arch tag timeout ip e) := by
  rcases validate_cases instance_id ns arch tag e with
    ⟨r, hv, hf, he, hs1, hs2⟩ | ⟨hv, hf, he⟩
  · rw [show evalBody instance_id ns arch tag timeout ip e = (r, [], false)
      from by simp [evalBody, hv]]
    exact ⟨by simp [flagStatusOk, hf, he, hs1, hs2], by simp [consume],
      Nat.le_refl _, Nat.le_refl _⟩
  · rcases runStage1_cases ip timeout (get_image_name instance_id ns arch tag)
        ("cd /testbed && pytest -rA "
          ++ joinSpace (extract_test_files_from_patch e.testPatch) ++ " -v")
        (extract_test_files_from_patch e.testPatch) e
        { initResult instance_id e.nowStr with
          image_name := some (get_image_name instance_id ns arch tag) } with
      ⟨out, hs, ht1, ht2, ht3, ht4, ht5, ht6, ht7⟩ |
      ⟨r2, evs1, hs, hf2, he2, hc0, hcnt1, hcnt2⟩
    · rw [show evalBody instance_id ns arch tag timeout ip e = out
        from by simp [evalBody, hv, hs]]
      refine ⟨?_, ht5, ht6, ht7⟩
      rw [flagStatusOk, ht1, ht2]
      simp [initResult, ht3, ht4]
    · have hrf2 : r2.f2p_pass = false := by
        rw [hf2]
        exact hf
      have hre2 : r2.env_pass = false := by
        rw [he2]
        exact he
      rcases ho2 : runStage2 ip timeout (get_image_name instance_id ns arch tag)
          ("cd /testbed && pytest -rA "
            ++ joinSpace (extract_test_files_from_patch e.testPatch) ++ " -v")
          (extract_test_files_from_patch e.testPatch) e r2 with ⟨r3, evs2, live⟩
      rw [show evalBody instance_id ns arch tag timeout ip e = (r3, evs1 ++ evs2, live)
        from by simp [evalBody, hv, hs, ho2]]
      have hcases := runStage2_cases ip timeout (get_image_name instance_id ns arch tag)
        ("cd /testbed && pytest -rA "
          ++ joinSpace (extract_test_files_from_patch e.testPatch) ++ " -v")
        (extract_test_files_from_patch e.testPatch) e r2
      rw [ho2] at hcases
      rcases hcases with ⟨ht1, ht2, ht3, ht4, ht5, ht6, ht7⟩ | ⟨hfs, ht5, hlive, ht6, ht7⟩
      · dsimp only at ht1 ht2 ht3 ht4 ht5 ht6 ht7
        refine ⟨?_, ?_, ?_, ?_⟩
        · rw [flagStatusOk]
          dsimp only
          rw [ht1, ht2, hrf2, hre2]
          simp [ht3, ht4]
        · dsimp only
          rw [consume_append, hc0]
          exact ht5
        · dsimp only
          simp only [List.countP_append]
          omega
        · dsimp only
          simp only [List.countP_append]
          omega
      · dsimp only at hfs ht5 hlive ht6 ht7
        subst hlive
        refine ⟨hfs, ?_, ?_, ?_⟩
        · show consume (some 0) (evs1 ++ evs2) = some 1
          rw [consume_append, hc0]
          exact ht5
        · show List.countP isCreate (evs1 ++ evs2) ≤ List.countP isStopA (evs1 ++ evs2) + 1
          simp only [List.countP_append]
          omega
        · show List.countP isCreate (evs1 ++ evs2) ≤ List.countP isRemoveA (evs1 ++ evs2) + 1
          simp only [List.countP_append]
          omega

/-- The returned result record does not depend on the outcomes of the
`finally`-block cleanup calls. -/
lemma evaluate_fst (instance_id ns arch tag : String) (timeout : Nat) (ip : Bool)
    (e : Env) (fs fr : Bool) :
    (evaluate_single_instance instance_id ns arch tag timeout ip e fs fr).1 =
      (evalBody instance_id ns arch tag timeout ip e).1 := by
  rcases h : evalBody instance_id ns arch tag timeout ip e with ⟨r, evs, live⟩
  simp [evaluate_single_instance, h]

lemma evaluate_flagStatusOk (instance_id ns arch tag : String) (timeout : Nat) (ip : Bool)
    (e : Env) (fs fr : Bool) :
    flagStatusOk (evaluate_single_instance instance_id ns arch tag timeout ip e fs fr).1 := by
  rw [evaluate_fst]
  exact (evalBody_shape instance_id ns arch tag timeout ip e).1

/-- Trace properties of the full event list, `finally` block included. -/
lemma evaluate_trace (instance_id ns arch tag : String) (timeout : Nat) (ip : Bool)
    (e : Env) (fs fr : Bool) :
    runTrace (evaluate_single_instance instance_id ns arch tag timeout ip e fs fr).2 ≠ none ∧
    (fr = true →
      runTrace (evaluate_single_instance instance_id ns arch tag timeout ip e fs fr).2 = some 0) ∧
    (evaluate_single_instance instance_id ns arch tag timeout ip e fs fr).2.countP isCreate ≤
      (evaluate_single_instance instance_id ns arch tag timeout ip e fs fr).2.countP isStopA ∧
    (evaluate_single_instance instance_id ns arch tag timeout ip e fs fr).2.countP isCreate ≤
      (evaluate_single_instance instance_id ns arch tag timeout ip e fs fr).2.countP isRemoveA := by
  have hb := evalBody_shape instance_id ns arch tag timeout ip e
  rcases h : evalBody instance_id ns arch tag timeout ip e with ⟨r, evs, live⟩
  rw [h] at hb
  obtain ⟨-, hc, hs, hrm⟩ := hb
  replace hc : consume (some 0) evs = some (if live = true then 1 else 0) := hc
  replace hs : evs.countP isCreate ≤ evs.countP isStopA + (if live = true then 1 else 0) := hs
  replace hrm : evs.countP isCreate ≤ evs.countP isRemoveA + (if live = true then 1 else 0) := hrm
  rw [show evaluate_single_instance instance_id ns arch tag timeout ip e fs fr =
      (r, evs ++ if live = true then [Ev.stopA fs, Ev.removeA fr] else [])
    from by simp [evaluate_single_instance, h]]
  cases live with
  | false =>
    replace hc : consume (some 0) evs = some 0 := hc
    replace hs : evs.countP isCreate ≤ evs.countP isStopA := by simpa using hs
    replace hrm : evs.countP isCreate ≤ evs.countP isRemoveA := by simpa using hrm
    refine ⟨?_, ?_, ?_, ?_⟩
    · show runTrace (evs ++ []) ≠ none
      rw [List.append_nil, runTrace, hc]
      simp
    · intro _
      show runTrace (evs ++ []) = some 0
      rw [List.append_nil, runTrace, hc]
    · show List.countP isCreate (evs ++ []) ≤ List.countP isStopA (evs ++ [])
      rw [List.append_nil]
      exact hs
    · show List.countP isCreate (evs ++ []) ≤ List.countP isRemoveA (evs ++ [])
      rw [List.append_nil]
      exact hrm
  | true =>
    replace hc : consume (some 0) evs = some 1 := by simpa using hc
    replace hs : evs.countP isCreate ≤ evs.countP isStopA + 1 := by simpa using hs
    replace hrm : evs.countP isCreate ≤ evs.countP isRemoveA + 1 := by simpa using hrm
    refine ⟨?_, ?_, ?_, ?_⟩
    · show runTrace (evs ++ [Ev.stopA fs, Ev.removeA fr]) ≠ none
      rw [runTrace, consume_append, hc]
      cases fr <;> simp [consume, stepEv_stop1, stepEv_removeT, stepEv_removeF]
    · intro hfr
      subst hfr
      show runTrace (evs ++ [Ev.stopA fs, Ev.removeA true]) = some 0
      rw [runTrace, consume_append, hc]
      simp [consume, stepEv_stop1, stepEv_removeT]
    · show List.countP isCreate (evs ++ [Ev.stopA fs, Ev.removeA fr]) ≤
        List.countP isStopA (evs ++ [Ev.stopA fs, Ev.removeA fr])
      simp [List.countP_append, List.countP_cons, isCreate, isStopA]
      omega
    · show List.countP isCreate (evs ++ [Ev.stopA fs, Ev.removeA fr]) ≤
        List.countP isRemoveA (evs ++ [Ev.stopA fs, Ev.removeA fr])
      simp [List.countP_append, List.countP_cons, isCreate, isRemoveA]
      omega

/-! ## Tally lemmas -/

/-- A result the orchestrator counts into `failed`. -/
def failP (r : EvalResult) : Bool :=
  !r.f2p_pass && !r.env_pass

lemma updateTally_failed (t : Tally) (r : EvalResult) :
    (updateTally t r).failed = t.failed + (if failP r then 1 else 0) := by
  unfold updateTally failP
  split_ifs <;> simp_all

lemma updateTally_total (t : Tally) (r : EvalResult) :
    (updateTally t r).total = t.total := by
  unfold updateTally
  split_ifs <;> rfl

lemma updateTally_sum (t : Tally) (r : EvalResult) :
    (updateTally t r).f2p_passed + (updateTally t r).env_passed + (updateTally t r).failed =
      t.f2p_passed + t.env_passed + t.failed + 1 := by
  unfold updateTally
  split_ifs <;> simp <;> omega

lemma foldl_updateTally_failed (rs : List EvalResult) (t : Tally) :
    (rs.foldl updateTally t).failed = t.failed + rs.countP failP := by
  induction rs generalizing t with
  | nil => simp
  | cons r rs ih =>
    rw [List.foldl_cons, ih, updateTally_failed, List.countP_cons]
    cases h : failP r with
    | false => simp [h]
    | true =>
      simp [h]
      omega

lemma foldl_updateTally_total (rs : List EvalResult) (t : Tally) :
    (rs.foldl updateTally t).total = t.total := by
  induction rs generalizing t with
  | nil => rfl
  | cons r rs ih => rw [List.foldl_cons, ih, updateTally_total]

lemma foldl_updateTally_sum (rs : List EvalResult) (t : Tally) :
    (rs.foldl updateTally t).f2p_passed + (rs.foldl updateTally t).env_passed +
      (rs.foldl updateTally t).failed =
      t.f2p_passed + t.env_passed + t.failed + rs.length := by
  induction rs generalizing t with
  | nil => simp
  | cons r rs ih =>
    rw [List.foldl_cons, ih, updateTally_sum, List.length_cons]
    omega

lemma tallyAll_failed (rs : List EvalResult) :
    (tallyAll rs).failed = rs.countP failP := by
  rw [tallyAll, foldl_updateTally_failed]
  simp

lemma mainExit_zero_iff (rs : List EvalResult) :
    mainExit rs = 0 ↔ ∀ r ∈ rs, r.f2p_pass = true ∨ r.env_pass = true := by
  rw [mainExit]
  constructor
  · intro h r hr
    by_contra hcon
    push_neg at hcon
    have hfp : failP r = true := by
      simp [failP, hcon.1, hcon.2]
    have : (tallyAll rs).failed ≠ 0 := by
      rw [tallyAll_failed]
      intro hz
      rw [List.countP_eq_zero] at hz
      exact absurd hfp (by simpa using hz r hr)
    simp [this] at h
  · intro h
    have : (tallyAll rs).failed = 0 := by
      rw [tallyAll_failed, List.countP_eq_zero]
      intro r hr
      rcases h r hr with hf | he
      · simp [failP, hf]
      · simp [failP, he]
    simp [this]

/-! ## The extractor as an ordered filter -/

lemma foldl_acc_filterMap {α β : Type} (g : α → Option β) (f : List β → α → List β)
    (lines : List α) (acc : List β)
    (hstep : ∀ acc x, f acc x = match g x with | some y => acc ++ [y] | none => acc) :
    lines.foldl f acc = acc ++ lines.filterMap g := by
  induction lines generalizing acc with
  | nil => simp
  | cons l ls ih =>
    rw [List.foldl_cons, hstep, List.filterMap_cons]
    cases hg : g l with
    | none => simp [ih]
    | some y => simp [ih]

/-- The source extractor equals its ordered-filter reformulation over the
old-file (`a/`) path. -/
lemma extract_eq_amended (patch : String) :
    extract_test_files_from_patch patch = extractTestFilesAmended patch := by
  by_cases hp : patch = ""
  · subst hp
    decide
  · rw [extract_test_files_from_patch, if_neg hp, extractTestFilesAmended]
    refine (foldl_acc_filterMap _ _ (splitLines patch) [] ?_).trans (List.nil_append _)
    intro acc line
    by_cases h1 : strStartsWith line "diff --git" = true
    · simp only [if_pos h1]
      rcases hps : pySplit line with _ | ⟨a, rest1⟩
      · simp [hps]
      rcases rest1 with _ | ⟨b, rest2⟩
      · simp [hps]
      rcases rest2 with _ | ⟨c, rest3⟩
      · simp [hps]
      · simp only [hps, List.length_cons, List.getD_cons_succ, List.getD_cons_zero]
        rw [if_pos (by omega)]
        by_cases h2 :
          (hasSubstr (strLower (strDrop c 2)) "test" && strEndsWith (strDrop c 2) ".py") = true
        · simp [h2]
        · simp [h2]
    · simp [h1]

/-! ## Claim theorems -/

/-- C1: for every instance whose two stages both run to completion without
apply failure or timeout, the classification satisfies
`env_pass = stage2.passed`, `f2p_pass = (not stage1.passed) and stage2.passed`,
and the final status follows the truth table over
`(stage1.passed, stage2.passed)`: (F,T) ↦ `f2p_passed`, (T,T) ↦ `env_passed`,
(F,F) ↦ `failed`, (T,F) ↦ `failed`; consequently `f2p_pass` implies
`env_pass` (the witness at (T,T) shows the reverse implication fails). -/
theorem C1_classification_truth_table (instance_id ns arch tag : String) (timeout : Nat)
    (ip : Bool) (e : Env) (fs fr : Bool)
    (pm1 ao1 tout1 pm2 fo to2 bo : String) (tc bc : Int)
    (hdir : e.dirExists = true) (hjson : e.jsonExists = true)
    (hpatch : e.testPatch ≠ "")
    (hfiles : extract_test_files_from_patch e.testPatch ≠ [])
    (himg : e.imageExists = true)
    (hc1 : e.s1.create = none)
    (hpy1 : pytestGate ip e.s1.pytest = PyResult.ret true pm1)
    (hput1 : e.s1.putA = true)
    (happ1 : e.s1.applyA = RawExec.done 0 ao1)
    (hdur1 : e.s1.testDuration ≤ timeout)
    (hraw1 : e.s1.testRaw = RawExec.done tc tout1)
    (hstop : e.midStop = none) (hrem : e.midRemove = none)
    (hc2 : e.s2.create = none)
    (hpy2 : pytestGate ip e.s2.pytest = PyResult.ret true pm2)
    (hput2 : e.s2.putA = true)
    (happ2 : e.s2.applyA = RawExec.done 0 fo)
    (hput3 : e.s2.putB = true)
    (happ3 : e.s2.applyB = RawExec.done 0 to2)
    (hdur2 : e.s2.testDuration ≤ timeout)
    (hraw2 : e.s2.testRaw = RawExec.done bc bo) :
    (evaluate_single_instance instance_id ns arch tag timeout ip e fs fr).1.env_pass
        = check_test_results bc ∧
    (evaluate_single_instance instance_id ns arch tag timeout ip e fs fr).1.f2p_pass
        = (!check_test_results tc && check_test_results bc) ∧
    (check_test_results tc = false → check_test_results bc = true →
      (evaluate_single_instance instance_id ns arch tag timeout ip e fs fr).1.status
        = "f2p_passed") ∧
    (check_test_results tc = true → check_test_results bc = true →
      (evaluate_single_instance instance_id ns arch tag timeout ip e fs fr).1.status
        = "env_passed") ∧
    (check_test_results tc = false → check_test_results bc = false →
      (evaluate_single_instance instance_id ns arch tag timeout ip e fs fr).1.status
        = "failed") ∧
    (check_test_results tc = true → check_test_results bc = false →
      (evaluate_single_instance instance_id ns arch tag timeout ip e fs fr).1.status
        = "failed") ∧
    ((evaluate_single_instance instance_id ns arch tag timeout ip e fs fr).1.f2p_pass = true →
      (evaluate_single_instance instance_id ns arch tag timeout ip e fs fr).1.env_pass = true) := by
  rw [evaluate_classified instance_id ns arch tag timeout ip e fs fr pm1 ao1 tout1 pm2 fo to2 bo
    tc bc hdir hjson hpatch hfiles himg hc1 hpy1 hput1 happ1 hdur1 hraw1 hstop hrem
    hc2 hpy2 hput2 happ2 hput3 happ3 hdur2 hraw2]
  refine ⟨rfl, rfl, ?_, ?_, ?_, ?_, ?_⟩
  · intro h1 h2
    simp [h1, h2]
  · intro h1 h2
    simp [h1, h2]
  · intro h1 h2
    simp [h1, h2]
  · intro h1 h2
    simp [h1, h2]
  · intro hf
    dsimp only at hf ⊢
    rcases hb : check_test_results bc with _ | _
    · rw [hb] at hf
      simp at hf
    · rfl

/-- Witness for C1 at the concrete (T,T) instance: both stages pass, so the
status is `env_passed` with `env_pass` set but `f2p_pass` clear — also
showing that `env_pass` does not imply `f2p_pass`. -/
theorem C1_classification_truth_table_witness :
    (evaluate_single_instance "inst" "ns" "x86_64" "latest" 600 false (sampleEnv 0 0) true true).1.env_pass = true ∧
    (evaluate_single_instance "inst" "ns" "x86_64" "latest" 600 false (sampleEnv 0 0) true true).1.f2p_pass = false ∧
    (evaluate_single_instance "inst" "ns" "x86_64" "latest" 600 false (sampleEnv 0 0) true true).1.status = "env_passed" := by
  have h := C1_classification_truth_table "inst" "ns" "x86_64" "latest" 600 false
    (sampleEnv 0 0) true true "" "" "out" "" "" "" "out" 0 0
    rfl rfl (by decide) (by decide) rfl rfl rfl rfl rfl (by decide) rfl rfl rfl
    rfl rfl rfl rfl rfl rfl (by decide) rfl
  exact ⟨h.1.trans (by decide), h.2.1.trans (by decide), h.2.2.2.1 (by decide) (by decide)⟩

/-- C2 counterexample: on a rename-style header whose old-file (`a/`) path is
not a test file but whose new-file (`b/`) path is, the code returns the empty
list while the claim's reading (filter and return the `b/` path) returns the
`b/` path — so the claim as stated is false on this input. -/
theorem C2_extractor_counterexample :
    extract_test_files_from_patch "diff --git a/foo.py b/tests/test_bar.py" = [] ∧
    extractTestFilesClaim "diff --git a/foo.py b/tests/test_bar.py" = ["tests/test_bar.py"] ∧
    extract_test_files_from_patch "diff --git a/foo.py b/tests/test_bar.py" ≠
      extractTestFilesClaim "diff --git a/foo.py b/tests/test_bar.py" := by
  refine ⟨by decide, by decide, by decide⟩

/-- C2 amended: for every test patch text, `extract_test_files_from_patch`
returns exactly the old-file (`a/`, third whitespace-separated field) paths of
lines starting with `diff --git`, stripped of their first two characters, that
contain `"test"` case-insensitively and end with `".py"`, in encounter order
with duplicates preserved (an ordered `filterMap`); for the empty patch text
it returns the empty sequence. -/
theorem C2_extractor_amended :
    (∀ patch, extract_test_files_from_patch patch = extractTestFilesAmended patch) ∧
    extract_test_files_from_patch "" = [] ∧
    extract_test_files_from_patch
      "diff --git a/tests/test_a.py b/tests/test_a.py\ndiff --git a/setup.py b/setup.py\ndiff --git a/tests/test_a.py b/tests/test_a.py"
      = ["tests/test_a.py", "tests/test_a.py"] := by
  exact ⟨extract_eq_amended, by decide, by decide⟩

/-- A successful oracle except that stage 1's test run outlasts the bound. -/
def sampleEnvS1Timeout : Env :=
  { sampleEnv 0 0 with s1 := { sampleStage 0 with testDuration := 700 } }

/-- A successful oracle except that stage 2's test run outlasts the bound. -/
def sampleEnvS2Timeout : Env :=
  { sampleEnv 0 0 with s2 := { sampleStage 0 with testDuration := 700 } }

/-- A successful oracle except that stage 1's `git apply` exits 1. -/
def sampleEnvApplyFail : Env :=
  { sampleEnv 0 0 with s1 := { sampleStage 0 with applyA := RawExec.done 1 "error: corrupt patch" } }

/-- A successful oracle except that the image is absent. -/
def sampleEnvNoImage : Env :=
  { sampleEnv 0 0 with imageExists := false }

/-- C3: at most one container exists at any point of an evaluation (the trace
automaton, which refuses a second `create` while a container is live, accepts
every trace — so stage 1's container is removed before stage 2's is created);
on every exit path every created container receives a stop attempt and a
remove attempt (`finally`); whenever the final remove call succeeds no
container is left; and the returned result record does not depend on the
cleanup calls' outcomes (cleanup errors are swallowed). -/
theorem C3_container_lifecycle (instance_id ns arch tag : String) (timeout : Nat)
    (ip : Bool) (e : Env) (fs fr fs' fr' : Bool) :
    runTrace (evaluate_single_instance instance_id ns arch tag timeout ip e fs fr).2 ≠ none ∧
    (fr = true →
      runTrace (evaluate_single_instance instance_id ns arch tag timeout ip e fs fr).2 = some 0) ∧
    (evaluate_single_instance instance_id ns arch tag timeout ip e fs fr).2.countP isCreate ≤
      (evaluate_single_instance instance_id ns arch tag timeout ip e fs fr).2.countP isStopA ∧
    (evaluate_single_instance instance_id ns arch tag timeout ip e fs fr).2.countP isCreate ≤
      (evaluate_single_instance instance_id ns arch tag timeout ip e fs fr).2.countP isRemoveA ∧
    (evaluate_single_instance instance_id ns arch tag timeout ip e fs fr).1 =
      (evaluate_single_instance instance_id ns arch tag timeout ip e fs' fr').1 := by
  obtain ⟨h1, h2, h3, h4⟩ := evaluate_trace instance_id ns arch tag timeout ip e fs fr
  exact ⟨h1, h2, h3, h4,
    (evaluate_fst instance_id ns arch tag timeout ip e fs fr).trans
      (evaluate_fst instance_id ns arch tag timeout ip e fs' fr').symm⟩

/-- Witness for C3: on a fully successful run with successful cleanup, the
trace ends with zero live containers. -/
theorem C3_container_lifecycle_witness :
    runTrace (evaluate_single_instance "inst" "ns" "x86_64" "latest" 600 false
      (sampleEnv 1 0) true true).2 = some 0 :=
  (C3_container_lifecycle "inst" "ns" "x86_64" "latest" 600 false
    (sampleEnv 1 0) true true true true).2.1 rfl

/-- C4: if the command outlasts the bound, `exec_run_with_timeout` raises the
timeout to its caller (and its thread actions contain no kill of the
in-container process); if it completes within the bound it returns the exit
code and combined output and raises nothing; and the evaluator converts a
stage timeout into `test_only_timeout` / `both_patches_timeout` and persists
a synthesized log carrying a `TIMEOUT` marker. -/
theorem C4_bounded_executor_timeout :
    (∀ (d t : Nat) (raw : RawExec), t < d →
      exec_run_with_timeout d t raw = ExecRes.timeoutRaised ∧
      TEv.kill ∉ exec_run_with_timeout_actions t) ∧
    (∀ (d t : Nat) (c : Int) (o : String), d ≤ t →
      exec_run_with_timeout d t (RawExec.done c o) = ExecRes.ok c o) ∧
    (∀ (instance_id ns arch tag : String) (timeout : Nat) (ip : Bool) (e : Env)
       (fs fr : Bool) (pm ao : String),
      e.dirExists = true → e.jsonExists = true → e.testPatch ≠ "" →
      extract_test_files_from_patch e.testPatch ≠ [] → e.imageExists = true →
      e.s1.create = none → pytestGate ip e.s1.pytest = PyResult.ret true pm →
      e.s1.putA = true → e.s1.applyA = RawExec.done 0 ao →
      timeout < e.s1.testDuration →
      (evaluate_single_instance instance_id ns arch tag timeout ip e fs fr).1.status
          = "test_only_timeout" ∧
      ∃ l, Ev.log "test_only.log" l ∈
          (evaluate_single_instance instance_id ns arch tag timeout ip e fs fr).2 ∧
        hasSubstr l "TIMEOUT" = true) ∧
    (∀ (instance_id ns arch tag : String) (timeout : Nat) (ip : Bool) (e : Env)
       (fs fr : Bool) (pm1 ao1 tout1 pm2 fo to2 : String) (tc : Int),
      e.dirExists = true → e.jsonExists = true → e.testPatch ≠ "" →
      extract_test_files_from_patch e.testPatch ≠ [] → e.imageExists = true →
      e.s1.create = none → pytestGate ip e.s1.pytest = PyResult.ret true pm1 →
      e.s1.putA = true → e.s1.applyA = RawExec.done 0 ao1 →
      e.s1.testDuration ≤ timeout → e.s1.testRaw = RawExec.done tc tout1 →
      e.midStop = none → e.midRemove = none →
      e.s2.create = none → pytestGate ip e.s2.pytest = PyResult.ret true pm2 →
      e.s2.putA = true → e.s2.applyA = RawExec.done 0 fo →
      e.s2.putB = true → e.s2.applyB = RawExec.done 0 to2 →
      timeout < e.s2.testDuration →
      (evaluate_single_instance instance_id ns arch tag timeout ip e fs fr).1.status
          = "both_patches_timeout" ∧
      ∃ l, Ev.log "both_patches.log" l ∈
          (evaluate_single_instance instance_id ns arch tag timeout ip e fs fr).2 ∧
        hasSubstr l "TIMEOUT" = true) := by
  refine ⟨?_, ?_, ?_, ?_⟩
  · intro d t raw h
    refine ⟨by simp [exec_run_with_timeout, h], ?_⟩
    simp [exec_run_with_timeout_actions]
  · intro d t c o h
    simp [exec_run_with_timeout, Nat.not_lt.mpr h]
  · intro instance_id ns arch tag timeout ip e fs fr pm ao
      hdir hjson hpatch hfiles himg hc1 hpy1 hput1 happ1 hdur
    rw [evaluate_stage1_timeout instance_id ns arch tag timeout ip e fs fr pm ao
      hdir hjson hpatch hfiles himg hc1 hpy1 hput1 happ1 hdur]
    refine ⟨rfl, ⟨timeoutLog 1 (get_image_name instance_id ns arch tag)
      (extract_test_files_from_patch e.testPatch)
      ("cd /testbed && pytest -rA "
        ++ joinSpace (extract_test_files_from_patch e.testPatch) ++ " -v") timeout,
      by simp, timeoutLog_marker 1 _ _ _ _⟩⟩
  · intro instance_id ns arch tag timeout ip e fs fr pm1 ao1 tout1 pm2 fo to2 tc
      hdir hjson hpatch hfiles himg hc1 hpy1 hput1 happ1 hdur1 hraw1 hstop hrem
      hc2 hpy2 hput2 happ2 hput3 happ3 hdur2
    rw [evaluate_stage2_timeout instance_id ns arch tag timeout ip e fs fr pm1 ao1 tout1 pm2 fo to2
      tc hdir hjson hpatch hfiles himg hc1 hpy1 hput1 happ1 hdur1 hraw1 hstop hrem
      hc2 hpy2 hput2 happ2 hput3 happ3 hdur2]
    refine ⟨rfl, ⟨timeoutLog 2 (get_image_name instance_id ns arch tag)
      (extract_test_files_from_patch e.testPatch)
      ("cd /testbed && pytest -rA "
        ++ joinSpace (extract_test_files_from_patch e.testPatch) ++ " -v") timeout,
      by simp, timeoutLog_marker 2 _ _ _ _⟩⟩

/-- Witness for C4 at concrete inputs: a 700-second command against a
600-second bound raises the timeout, a 5-second one returns its exit code and
output, and the evaluator turns the stage-1 timeout into
`test_only_timeout`. -/
theorem C4_bounded_executor_timeout_witness :
    exec_run_with_timeout 700 600 (RawExec.done 0 "") = ExecRes.timeoutRaised ∧
    exec_run_with_timeout 5 600 (RawExec.done 0 "ok") = ExecRes.ok 0 "ok" ∧
    (evaluate_single_instance "inst" "ns" "x86_64" "latest" 600 false
      sampleEnvS1Timeout true true).1.status = "test_only_timeout" := by
  have h := C4_bounded_executor_timeout
  exact ⟨(h.1 700 600 (RawExec.done 0 "") (by decide)).1,
    h.2.1 5 600 0 "ok" (by decide),
    (h.2.2.1 "inst" "ns" "x86_64" "latest" 600 false sampleEnvS1Timeout true true "" ""
      rfl rfl (by decide) (by decide) rfl rfl rfl rfl rfl (by decide)).1⟩

/-- C5: when stage 1's `git apply` of the test patch exits non-zero, the
evaluator returns immediately with `test_patch_apply_failed`, never runs the
test command in either stage, writes a stage log containing the apply call's
raw output, and `both_patches_time` stays 0. -/
theorem C5_apply_failure_aborts (instance_id ns arch tag : String) (timeout : Nat)
    (ip : Bool) (e : Env) (fs fr : Bool) (pm ao : String) (ac : Int)
    (hdir : e.dirExists = true) (hjson : e.jsonExists = true)
    (hpatch : e.testPatch ≠ "")
    (hfiles : extract_test_files_from_patch e.testPatch ≠ [])
    (himg : e.imageExists = true)
    (hc1 : e.s1.create = none)
    (hpy1 : pytestGate ip e.s1.pytest = PyResult.ret true pm)
    (hput1 : e.s1.putA = true)
    (happ1 : e.s1.applyA = RawExec.done ac ao)
    (hac : ac ≠ 0) :
    (evaluate_single_instance instance_id ns arch tag timeout ip e fs fr).1.status
        = "test_patch_apply_failed" ∧
    (evaluate_single_instance instance_id ns arch tag timeout ip e fs fr).1.both_patches_time
        = 0 ∧
    (∃ l, Ev.log "test_only.log" l ∈
        (evaluate_single_instance instance_id ns arch tag timeout ip e fs fr).2 ∧
      hasSubstr l ao = true) ∧
    Ev.execTest 1 ∉ (evaluate_single_instance instance_id ns arch tag timeout ip e fs fr).2 ∧
    Ev.execTest 2 ∉ (evaluate_single_instance instance_id ns arch tag timeout ip e fs fr).2 := by
  rw [evaluate_applyFail instance_id ns arch tag timeout ip e fs fr pm ao ac
    hdir hjson hpatch hfiles himg hc1 hpy1 hput1 happ1 hac]
  refine ⟨rfl, rfl, ⟨_, by simp, applyFailLog_contains ao⟩, by simp, by simp⟩

/-- Witness for C5: a concrete run whose stage-1 apply exits 1. -/
theorem C5_apply_failure_aborts_witness :
    (evaluate_single_instance "inst" "ns" "x86_64" "latest" 600 false
      sampleEnvApplyFail true true).1.status = "test_patch_apply_failed" ∧
    (evaluate_single_instance "inst" "ns" "x86_64" "latest" 600 false
      sampleEnvApplyFail true true).1.both_patches_time = 0 :=
  ⟨(C5_apply_failure_aborts "inst" "ns" "x86_64" "latest" 600 false sampleEnvApplyFail true true
      "" "error: corrupt patch" 1 rfl rfl (by decide) (by decide) rfl rfl rfl rfl rfl
      (by decide)).1,
   (C5_apply_failure_aborts "inst" "ns" "x86_64" "latest" 600 false sampleEnvApplyFail true true
      "" "error: corrupt patch" 1 rfl rfl (by decide) (by decide) rfl rfl rfl rfl rfl
      (by decide)).2.1⟩

/-- C6: each validation failure — missing instance dir, missing
`instance.json`, empty test patch, empty test-file extraction, absent image —
returns its status with an empty event trace (no container ever created) and
both time fields still 0. -/
theorem C6_validation_failures_no_container (instance_id ns arch tag : String)
    (timeout : Nat) (ip : Bool) (e : Env) (fs fr : Bool) :
    (e.dirExists = false →
      (evaluate_single_instance instance_id ns arch tag timeout ip e fs fr).1.status
          = "no_instance_dir" ∧
      (evaluate_single_instance instance_id ns arch tag timeout ip e fs fr).2 = [] ∧
      (evaluate_single_instance instance_id ns arch tag timeout ip e fs fr).1.test_only_time = 0 ∧
      (evaluate_single_instance instance_id ns arch tag timeout ip e fs fr).1.both_patches_time = 0) ∧
    (e.dirExists = true → e.jsonExists = false →
      (evaluate_single_instance instance_id ns arch tag timeout ip e fs fr).1.status
          = "no_instance_json" ∧
      (evaluate_single_instance instance_id ns arch tag timeout ip e fs fr).2 = [] ∧
      (evaluate_single_instance instance_id ns arch tag timeout ip e fs fr).1.test_only_time = 0 ∧
      (evaluate_single_instance instance_id ns arch tag timeout ip e fs fr).1.both_patches_time = 0) ∧
    (e.dirExists = true → e.jsonExists = true → e.testPatch = "" →
      (evaluate_single_instance instance_id ns arch tag timeout ip e fs fr).1.status
          = "no_test_patch" ∧
      (evaluate_single_instance instance_id ns arch tag timeout ip e fs fr).2 = [] ∧
      (evaluate_single_instance instance_id ns arch tag timeout ip e fs fr).1.test_only_time = 0 ∧
      (evaluate_single_instance instance_id ns arch tag timeout ip e fs fr).1.both_patches_time = 0) ∧
    (e.dirExists = true → e.jsonExists = true → e.testPatch ≠ "" →
      extract_test_files_from_patch e.testPatch = [] →
      (evaluate_single_instance instance_id ns arch tag timeout ip e fs fr).1.status
          = "no_test_files" ∧
      (evaluate_single_instance instance_id ns arch tag timeout ip e fs fr).2 = [] ∧
      (evaluate_single_instance instance_id ns arch tag timeout ip e fs fr).1.test_only_time = 0 ∧
      (evaluate_single_instance instance_id ns arch tag timeout ip e fs fr).1.both_patches_time = 0) ∧
    (e.dirExists = true → e.jsonExists = true → e.testPatch ≠ "" →
      extract_test_files_from_patch e.testPatch ≠ [] → e.imageExists = false →
      (evaluate_single_instance instance_id ns arch tag timeout ip e fs fr).1.status
          = "no_image" ∧
      (evaluate_single_instance instance_id ns arch tag timeout ip e fs fr).2 = [] ∧
      (evaluate_single_instance instance_id ns arch tag timeout ip e fs fr).1.test_only_time = 0 ∧
      (evaluate_single_instance instance_id ns arch tag timeout ip e fs fr).1.both_patches_time = 0) := by
  refine ⟨?_, ?_, ?_, ?_, ?_⟩
  · intro h1
    have hv : validate instance_id ns arch tag e = Except.error
        { initResult instance_id e.nowStr with
          status := "no_instance_dir", message := "Instance directory does not exist" } := by
      simp [validate, h1]
    rw [evaluate_validation_error instance_id ns arch tag timeout ip e fs fr _ hv]
    exact ⟨rfl, rfl, rfl, rfl⟩
  · intro h1 h2
    have hv : validate instance_id ns arch tag e = Except.error
        { initResult instance_id e.nowStr with
          status := "no_instance_json", message := "instance.json not found" } := by
      simp [validate, h1, h2]
    rw [evaluate_validation_error instance_id ns arch tag timeout ip e fs fr _ hv]
    exact ⟨rfl, rfl, rfl, rfl⟩
  · intro h1 h2 h3
    have hv : validate instance_id ns arch tag e = Except.error
        { initResult instance_id e.nowStr with
          status := "no_test_patch", message := "test_patch is empty" } := by
      simp [validate, h1, h2, h3]
    rw [evaluate_validation_error instance_id ns arch tag timeout ip e fs fr _ hv]
    exact ⟨rfl, rfl, rfl, rfl⟩
  · intro h1 h2 h3 h4
    have hv : validate instance_id ns arch tag e = Except.error
        { initResult instance_id e.nowStr with
          status := "no_test_files", message := "No test files found in test_patch" } := by
      simp [validate, h1, h2, h3, h4]
    rw [evaluate_validation_error instance_id ns arch tag timeout ip e fs fr _ hv]
    exact ⟨rfl, rfl, rfl, rfl⟩
  · intro h1 h2 h3 h4 h5
    have hv : validate instance_id ns arch tag e = Except.error
        { initResult instance_id e.nowStr with
          image_name := some (get_image_name instance_id ns arch tag)
          status := "no_image"
          message := "Docker image not found: " ++ get_image_name instance_id ns arch tag } := by
      simp [validate, h1, h2, h3, h4, h5]
    rw [evaluate_validation_error instance_id ns arch tag timeout ip e fs fr _ hv]
    exact ⟨rfl, rfl, rfl, rfl⟩

/-- Witness for C6: a concrete run whose image is absent yields `no_image`
with an empty container/log trace. -/
theorem C6_validation_failures_no_container_witness :
    (evaluate_single_instance "inst" "ns" "x86_64" "latest" 600 false
      sampleEnvNoImage true true).1.status = "no_image" ∧
    (evaluate_single_instance "inst" "ns" "x86_64" "latest" 600 false
      sampleEnvNoImage true true).2 = [] :=
  ⟨((C6_validation_failures_no_container "inst" "ns" "x86_64" "latest" 600 false
      sampleEnvNoImage true true).2.2.2.2 rfl rfl (by decide) (by decide) rfl).1,
   ((C6_validation_failures_no_container "inst" "ns" "x86_64" "latest" 600 false
      sampleEnvNoImage true true).2.2.2.2 rfl rfl (by decide) (by decide) rfl).2.1⟩

/-- C9: when a stage's bounded test execution times out, the corresponding
elapsed-time field of the result stays at its initial 0 (the wall time spent
is not recorded) and the corresponding passed flag stays false: stage 1
leaves `test_only_time = 0` and `test_only_passed = false`; stage 2 leaves
`both_patches_time = 0` and `both_patches_passed = false`. -/
theorem C9_timeout_time_fields (instance_id ns arch tag : String) (timeout : Nat)
    (ip : Bool) (e : Env) (fs fr : Bool) :
    (∀ (pm ao : String),
      e.dirExists = true → e.jsonExists = true → e.testPatch ≠ "" →
      extract_test_files_from_patch e.testPatch ≠ [] → e.imageExists = true →
      e.s1.create = none → pytestGate ip e.s1.pytest = PyResult.ret true pm →
      e.s1.putA = true → e.s1.applyA = RawExec.done 0 ao →
      timeout < e.s1.testDuration →
      (evaluate_single_instance instance_id ns arch tag timeout ip e fs fr).1.test_only_time = 0 ∧
      (evaluate_single_instance instance_id ns arch tag timeout ip e fs fr).1.test_only_passed = false) ∧
    (∀ (pm1 ao1 tout1 pm2 fo to2 : String) (tc : Int),
      e.dirExists = true → e.jsonExists = true → e.testPatch ≠ "" →
      extract_test_files_from_patch e.testPatch ≠ [] → e.imageExists = true →
      e.s1.create = none → pytestGate ip e.s1.pytest = PyResult.ret true pm1 →
      e.s1.putA = true → e.s1.applyA = RawExec.done 0 ao1 →
      e.s1.testDuration ≤ timeout → e.s1.testRaw = RawExec.done tc tout1 →
      e.midStop = none → e.midRemove = none →
      e.s2.create = none → pytestGate ip e.s2.pytest = PyResult.ret true pm2 →
      e.s2.putA = true → e.s2.applyA = RawExec.done 0 fo →
      e.s2.putB = true → e.s2.applyB = RawExec.done 0 to2 →
      timeout < e.s2.testDuration →
      (evaluate_single_instance instance_id ns arch tag timeout ip e fs fr).1.both_patches_time = 0 ∧
      (evaluate_single_instance instance_id ns arch tag timeout ip e fs fr).1.both_patches_passed = false) := by
  constructor
  · intro pm ao hdir hjson hpatch hfiles himg hc1 hpy1 hput1 happ1 hdur
    rw [evaluate_stage1_timeout instance_id ns arch tag timeout ip e fs fr pm ao
      hdir hjson hpatch hfiles himg hc1 hpy1 hput1 happ1 hdur]
    exact ⟨rfl, rfl⟩
  · intro pm1 ao1 tout1 pm2 fo to2 tc hdir hjson hpatch hfiles himg hc1 hpy1 hput1 happ1
      hdur1 hraw1 hstop hrem hc2 hpy2 hput2 happ2 hput3 happ3 hdur2
    rw [evaluate_stage2_timeout instance_id ns arch tag timeout ip e fs fr pm1 ao1 tout1 pm2 fo
      to2 tc hdir hjson hpatch hfiles himg hc1 hpy1 hput1 happ1 hdur1 hraw1 hstop hrem
      hc2 hpy2 hput2 happ2 hput3 happ3 hdur2]
    exact ⟨rfl, rfl⟩

/-- Witness for C9: concrete stage-1 and stage-2 timeouts leave their time
fields at 0 and their passed flags false. -/
theorem C9_timeout_time_fields_witness :
    (evaluate_single_instance "inst" "ns" "x86_64" "latest" 600 false
        sampleEnvS1Timeout true true).1.test_only_time = 0 ∧
    (evaluate_single_instance "inst" "ns" "x86_64" "latest" 600 false
        sampleEnvS1Timeout true true).1.test_only_passed = false ∧
    (evaluate_single_instance "inst" "ns" "x86_64" "latest" 600 false
        sampleEnvS2Timeout true true).1.both_patches_time = 0 ∧
    (evaluate_single_instance "inst" "ns" "x86_64" "latest" 600 false
        sampleEnvS2Timeout true true).1.both_patches_passed = false := by
  have h1 := (C9_timeout_time_fields "inst" "ns" "x86_64" "latest" 600 false
    sampleEnvS1Timeout true true).1 "" ""
    rfl rfl (by decide) (by decide) rfl rfl rfl rfl rfl (by decide)
  have h2 := (C9_timeout_time_fields "inst" "ns" "x86_64" "latest" 600 false
    sampleEnvS2Timeout true true).2 "" "" "out" "" "" "" 0
    rfl rfl (by decide) (by decide) rfl rfl rfl rfl rfl (by decide) rfl rfl rfl
    rfl rfl rfl rfl rfl rfl (by decide)
  exact ⟨h1.1, h1.2, h2.1, h2.2⟩

/-- C7: `write_patch_to_container` builds an archive with exactly one entry
named after the destination's base name, sized as the UTF-8 byte length of the
patch text with exactly those bytes as content, uploads it to the
destination's directory (root when the destination has no directory part),
and raises the delivery error precisely when the upload reports failure. -/
theorem C7_patch_delivery (putOk : Bool) (patch dest : String) :
    write_patch_to_container true patch dest =
      Except.ok
        ((if os_path_dirname dest = "" then "/" else os_path_dirname dest),
         [{ name := os_path_basename dest
            size := patch.toUTF8.toList.length
            content := patch.toUTF8.toList }]) ∧
    write_patch_to_container false patch dest =
      Except.error ("Failed to write patch to " ++ dest) ∧
    ((∃ m, write_patch_to_container putOk patch dest = Except.error m) ↔ putOk = false) := by
  refine ⟨rfl, rfl, ?_⟩
  cases putOk with
  | false => exact ⟨fun _ => rfl, fun _ => ⟨_, rfl⟩⟩
  | true =>
    constructor
    · rintro ⟨m, hm⟩
      simp [write_patch_to_container] at hm
    · intro h
      cases h

/-- C8: over any batch of results produced by the evaluator, the
orchestrator's exit status is 0 iff every instance reached `f2p_passed` or
`env_passed`; equivalently it is non-zero exactly when some result has both
`f2p_pass` and `env_pass` false. -/
theorem C8_exit_code (rs : List EvalResult)
    (h : ∀ r ∈ rs, ∃ instance_id ns arch tag timeout ip e fs fr,
      r = (evaluate_single_instance instance_id ns arch tag timeout ip e fs fr).1) :
    (mainExit rs = 0 ↔ ∀ r ∈ rs, r.status = "f2p_passed" ∨ r.status = "env_passed") ∧
    (mainExit rs ≠ 0 ↔ ∃ r ∈ rs, r.f2p_pass = false ∧ r.env_pass = false) := by
  have hflag : ∀ r ∈ rs, (r.f2p_pass = true ∨ r.env_pass = true) ↔
      (r.status = "f2p_passed" ∨ r.status = "env_passed") := by
    intro r hr
    obtain ⟨instance_id, ns, arch, tag, timeout, ip, e, fs, fr, rfl⟩ := h r hr
    exact evaluate_flagStatusOk instance_id ns arch tag timeout ip e fs fr
  constructor
  · rw [mainExit_zero_iff]
    constructor
    · intro hall r hr
      exact (hflag r hr).mp (hall r hr)
    · intro hall r hr
      exact (hflag r hr).mpr (hall r hr)
  · rw [Ne, mainExit_zero_iff]
    constructor
    · intro hne
      push_neg at hne
      obtain ⟨r, hr, hnot⟩ := hne
      exact ⟨r, hr, by simpa using hnot.1, by simpa using hnot.2⟩
    · rintro ⟨r, hr, hf, he⟩ hall
      have hor := hall r hr
      rw [hf, he] at hor
      simp at hor

/-- Witness for C8: a one-instance batch whose run classifies as
`f2p_passed` makes the orchestrator exit 0. -/
theorem C8_exit_code_witness :
    mainExit [(evaluate_single_instance "inst" "ns" "x86_64" "latest" 600 false
      (sampleEnv 1 0) true true).1] = 0 := by
  have h := C8_exit_code
    [(evaluate_single_instance "inst" "ns" "x86_64" "latest" 600 false (sampleEnv 1 0) true true).1]
    (by
      intro r hr
      rw [List.mem_singleton] at hr
      subst hr
      exact ⟨"inst", "ns", "x86_64", "latest", 600, false, sampleEnv 1 0, true, true, rfl⟩)
  refine h.1.mpr ?_
  intro r hr
  rw [List.mem_singleton] at hr
  subst hr
  left
  rw [evaluate_classified "inst" "ns" "x86_64" "latest" 600 false (sampleEnv 1 0) true true
    "" "" "out" "" "" "" "out" 1 0
    rfl rfl (by decide) (by decide) rfl rfl rfl rfl rfl (by decide) rfl rfl rfl
    rfl rfl rfl rfl rfl rfl (by decide) rfl]
  rfl

/-- C10: every completed instance increments exactly one of the three
aggregate counters (so `total = f2p_passed + env_passed + failed` in the
final statistics); the written `failure_breakdown` itemizes only the statuses
`no_image` and `error`; and any other failing result increments only the
overall `failed` counter, leaving both breakdown counters untouched. -/
theorem C10_aggregation :
    (∀ rs : List EvalResult,
      (tallyAll rs).total =
        (tallyAll rs).f2p_passed + (tallyAll rs).env_passed + (tallyAll rs).failed) ∧
    (∀ (t : Tally) (r : EvalResult),
      (updateTally t r).f2p_passed + (updateTally t r).env_passed + (updateTally t r).failed =
        t.f2p_passed + t.env_passed + t.failed + 1) ∧
    (∀ t : Tally, (failureBreakdown t).map Prod.fst = ["no_image", "error"]) ∧
    (∀ (t : Tally) (r : EvalResult), r.f2p_pass = false → r.env_pass = false →
      r.status ≠ "no_image" → r.status ≠ "error" →
      updateTally t r = { t with failed := t.failed + 1 }) := by
  refine ⟨?_, updateTally_sum, fun t => rfl, ?_⟩
  · intro rs
    have hT : (tallyAll rs).total = rs.length := by
      rw [tallyAll, foldl_updateTally_total]
    have hS : (tallyAll rs).f2p_passed + (tallyAll rs).env_passed + (tallyAll rs).failed
        = rs.length := by
      rw [tallyAll, foldl_updateTally_sum]
      simp
    omega
  · intro t r hf he h1 h2
    simp [updateTally, hf, he, h1, h2]

/-- A result record with a timeout status, as the evaluator returns it. -/
def sampleTimeoutResult : EvalResult :=
  { instance_id := "i", status := "test_only_timeout", env_pass := false, f2p_pass := false,
    message := "", test_only_time := 0, both_patches_time := 0, test_only_passed := false,
    both_patches_passed := false, image_name := none, timestamp := "" }

/-- Witness for C10: a `test_only_timeout` result increments only the
overall `failed` counter, not the breakdown counters. -/
theorem C10_aggregation_witness :
    updateTally
      { total := 3, f2p_passed := 1, env_passed := 1, failed := 0, no_image := 0, errorCount := 0 }
      sampleTimeoutResult =
      { total := 3, f2p_passed := 1, env_passed := 1, failed := 1, no_image := 0,
        errorCount := 0 } :=
  C10_aggregation.2.2.2
    { total := 3, f2p_passed := 1, env_passed := 1, failed := 0, no_image := 0, errorCount := 0 }
    sampleTimeoutResult rfl rfl (by decide) (by decide)

end SweBench
